import Mathlib

/-!
Verification of the ArcWelder segmented shape accumulators
(`ArcWelder/segmented_arc.cpp`, `ArcWelder/segmented_arc.h`,
`ArcWelder/segmented_spline.cpp`).

Modelling conventions: C++ `double` values are modelled as rationals,
C++ `int` as `ℤ`, counters as `ℕ`, `std::string` as `String`.
The `segmented_shape` base class, the `utilities` helpers and the
geometry solvers (`arc::try_create_arc`, `spline::try_create_spline`)
are not part of the sources; they are modelled from the specification
where noted, and the solvers are taken as abstract function parameters
returning `Option` (`none` = fit failure, which leaves the current
Curve Model untouched).
-/

namespace ArcWelder

/-- The value of the `PI_DOUBLE` constant: the IEEE double nearest to π. -/
def PI_DOUBLE : ℚ := 884279719003555 / 281474976710656

namespace utilities

/-- Fuel-driven decimal digit rendering, most significant digit first. -/
def to_digits_core : ℕ → ℕ → List Char → List Char
  | 0, _, acc => acc
  | fuel + 1, n, acc =>
    let acc' := Nat.digitChar (n % 10) :: acc
    if n / 10 = 0 then acc' else to_digits_core fuel (n / 10) acc'

/-- Decimal digits of a natural number, most significant first (`['0']` for zero). -/
def nat_chars (n : ℕ) : List Char := to_digits_core (n + 1) n []

/-- Modelled from the spec: the magnitude of `x` rounded at `precision` decimal
places and scaled to an integer, shared by `utilities::dtos` and
`utilities::get_num_digits` (`utilities.cpp` is not under `src/`). -/
def scaled (x : ℚ) (precision : ℕ) : ℕ := (round (|x| * (10 : ℚ) ^ precision)).toNat

/-- The `precision` fractional digits of a scaled magnitude, most significant first. -/
def frac_chars (m precision : ℕ) : List Char :=
  ((List.range precision).map (fun k => Nat.digitChar (m / 10 ^ k % 10))).reverse

/-- Modelled from the spec: `utilities::dtos` (`utilities.cpp` is not under
`src/`) renders a value in fixed-point notation: an optional minus sign, the
integer digits of the rounded magnitude, and, when `precision > 0`, a decimal
point followed by exactly `precision` fractional digits. -/
def dtos (x : ℚ) (precision : ℕ) : String :=
  String.mk
    ((if x < 0 then ['-'] else []) ++
      nat_chars (scaled x precision / 10 ^ precision) ++
      (if precision = 0 then [] else '.' :: frac_chars (scaled x precision % 10 ^ precision) precision))

/-- Modelled from the spec: `utilities::get_num_digits` (`utilities.cpp` is not
under `src/`) counts the integer digits of the value's rounded magnitude, at the
given precision ("digit counts computed from each value's magnitude and
configured precision"). -/
def get_num_digits (x : ℚ) (precision : ℕ) : ℕ :=
  (nat_chars (scaled x precision / 10 ^ precision)).length

/-- Modelled from the spec: `utilities::is_zero` — magnitude strictly below tolerance. -/
def is_zero (x tolerance : ℚ) : Bool := decide (|x| < tolerance)

/-- Modelled from the spec: `utilities::is_equal` — difference strictly below tolerance. -/
def is_equal (x y tolerance : ℚ) : Bool := decide (|x - y| < tolerance)

/-- Modelled from the spec: `utilities::greater_than_or_equal`. -/
def greater_than_or_equal (x y : ℚ) : Bool := decide (y ≤ x)

/-- Modelled from the spec: `(int)utilities::floor` applied to a double. -/
def floor (x : ℚ) : ℤ := ⌊x⌋

end utilities

/-- Modelled from the spec: a fully resolved printer point (`printer_point`,
declared in the missing `segmented_shape.h`): position, extruder offset and
mode, feed rate, and the distance from the previous point. -/
structure printer_point where
  x : ℚ
  y : ℚ
  z : ℚ
  e_offset : ℚ
  is_extruder_relative : Bool
  f : ℚ
  distance : ℚ
  deriving DecidableEq

/-- Modelled from the spec: the arc Curve Model (`arc`, declared in the missing
`segmented_shape.h`): start/end point, signed sweep angle, radius, center
offset components relative to the start point, and arc length. -/
structure arc where
  start_point : printer_point
  end_point : printer_point
  angle_radians : ℚ
  radius : ℚ
  i_offset : ℚ
  j_offset : ℚ
  length : ℚ
  deriving DecidableEq

/-- `arc::get_i`: center offset along the first axis, relative to the start point. -/
def arc.get_i (a : arc) : ℚ := a.i_offset

/-- `arc::get_j`: center offset along the second axis, relative to the start point. -/
def arc.get_j (a : arc) : ℚ := a.j_offset

/-- Modelled from the spec: the spline Curve Model (`spline`, declared in the
missing `segmented_shape.h`): start/end point and cumulative curve length. -/
structure spline where
  start_point : printer_point
  end_point : printer_point
  length : ℚ
  deriving DecidableEq

/-- Modelled from the spec: the configuration fields of the missing
`segmented_shape` base class (validated at construction, never mutated). -/
structure shape_config where
  allow_3d_shapes : Bool
  min_segments : ℤ
  max_segments : ℤ
  mm_per_segment : ℚ
  resolution_mm : ℚ
  path_tolerance_percent : ℚ
  max_gcode_length : ℤ
  xyz_precision : ℕ
  e_precision : ℕ
  deriving DecidableEq

/-- Modelled from the spec: `segmented_shape::get_xyz_tolerance`, the numeric
tolerance derived from the positional precision, `10 ^ (-xyz_precision)`. -/
def get_xyz_tolerance (cfg : shape_config) : ℚ := 1 / 10 ^ cfg.xyz_precision

/-- State of a `segmented_arc` accumulator: the mutable fields of the missing
`segmented_shape` base class (modelled from the spec) together with
`current_arc_` and `max_radius_mm_` from `segmented_arc.h`. -/
structure segmented_arc where
  cfg : shape_config
  max_radius_mm_ : ℚ
  points_ : List printer_point
  original_shape_length_ : ℚ
  current_arc_ : arc
  e_relative_ : ℚ
  is_shape_ : Bool
  num_firmware_compensations_ : ℕ
  num_gcode_length_exceptions_ : ℕ
  deriving DecidableEq

/-- State of a `segmented_spline` accumulator, as for `segmented_arc`. -/
structure segmented_spline where
  cfg : shape_config
  points_ : List printer_point
  original_shape_length_ : ℚ
  current_spline_ : spline
  e_relative_ : ℚ
  is_shape_ : Bool
  num_firmware_compensations_ : ℕ
  num_gcode_length_exceptions_ : ℕ
  deriving DecidableEq

/-- `segmented_shape::is_shape` (accessor of the valid-shape flag). -/
def segmented_arc.is_shape (s : segmented_arc) : Bool := s.is_shape_

/-- `segmented_shape::is_shape` for the spline accumulator. -/
def segmented_spline.is_shape (s : segmented_spline) : Bool := s.is_shape_

/-- The local `e` shared by `get_gcode` and `get_gcode_length`
(`segmented_arc.cpp`, lines 172 and 237). -/
def segmented_arc.e_value (s : segmented_arc) : ℚ :=
  if s.current_arc_.end_point.is_extruder_relative then s.e_relative_ else s.current_arc_.end_point.e_offset

/-- The local `f` shared by `get_gcode` and `get_gcode_length`
(`segmented_arc.cpp`, lines 173 and 238). -/
def segmented_arc.f_value (s : segmented_arc) : ℚ :=
  if s.current_arc_.start_point.f = s.current_arc_.end_point.f then 0 else s.current_arc_.end_point.f

/-- The local `has_e` shared by `get_gcode` and `get_gcode_length`. -/
def segmented_arc.has_e (s : segmented_arc) : Bool := decide (s.e_relative_ ≠ 0)

/-- The local `has_f` shared by `get_gcode` and `get_gcode_length`. -/
def segmented_arc.has_f (s : segmented_arc) : Bool := utilities.greater_than_or_equal s.f_value 1

/-- The local `has_z` shared by `get_gcode` and `get_gcode_length`: Z appears
only when 3-axis shapes are allowed and the Z coordinate moved by at least the
tolerance. -/
def segmented_arc.has_z (s : segmented_arc) : Bool :=
  s.cfg.allow_3d_shapes &&
    !(utilities.is_equal s.current_arc_.start_point.z s.current_arc_.end_point.z (get_xyz_tolerance s.cfg))

/-- `segmented_arc::get_gcode` (`segmented_arc.cpp`, lines 169-233). -/
def segmented_arc.get_gcode (s : segmented_arc) : String :=
  (if s.current_arc_.angle_radians < 0 then "G2" else "G3") ++
    " X" ++ utilities.dtos s.current_arc_.end_point.x s.cfg.xyz_precision ++
    " Y" ++ utilities.dtos s.current_arc_.end_point.y s.cfg.xyz_precision ++
    (if s.has_z then " Z" ++ utilities.dtos s.current_arc_.end_point.z s.cfg.xyz_precision else "") ++
    " I" ++ utilities.dtos s.current_arc_.get_i s.cfg.xyz_precision ++
    " J" ++ utilities.dtos s.current_arc_.get_j s.cfg.xyz_precision ++
    (if s.has_e then " E" ++ utilities.dtos s.e_value s.cfg.e_precision else "") ++
    (if s.has_f then " F" ++ utilities.dtos s.f_value 0 else "")

/-- `segmented_arc::get_gcode_length` (`segmented_arc.cpp`, lines 235-286). -/
def segmented_arc.get_gcode_length (s : segmented_arc) : ℤ :=
  let e : ℚ := s.e_value
  let f : ℚ := s.f_value
  let has_e : Bool := s.has_e
  let has_f : Bool := s.has_f
  let has_z : Bool := s.has_z
  let xyz_precision : ℕ := s.cfg.xyz_precision
  let e_precision : ℕ := s.cfg.e_precision
  let i : ℚ := s.current_arc_.get_i
  let j : ℚ := s.current_arc_.get_j
  let num_spaces : ℤ := 4 + (if has_z then 1 else 0) + (if has_e then 1 else 0) + (if has_f then 1 else 0)
  let num_decimal_points : ℤ := 4 + (if has_z then 1 else 0) + (if has_e then 1 else 0)
  let num_decimals : ℤ := (xyz_precision : ℤ) * (4 + (if has_z then 1 else 0)) + (e_precision : ℤ) * (if has_e then 1 else 0)
  let num_digits : ℤ :=
    (utilities.get_num_digits s.current_arc_.end_point.x xyz_precision : ℤ) +
    (utilities.get_num_digits s.current_arc_.end_point.y xyz_precision : ℤ) +
    (if has_z then (utilities.get_num_digits s.current_arc_.end_point.z xyz_precision : ℤ) else 0) +
    (if has_e then (utilities.get_num_digits e e_precision : ℤ) else 0) +
    (utilities.get_num_digits i xyz_precision : ℤ) +
    (utilities.get_num_digits j xyz_precision : ℤ) +
    (if has_f then (utilities.get_num_digits f 0 : ℤ) else 0)
  let num_minus_signs : ℤ :=
    (if s.current_arc_.end_point.x < 0 then 1 else 0) +
    (if s.current_arc_.end_point.y < 0 then 1 else 0) +
    (if i < 0 then 1 else 0) +
    (if j < 0 then 1 else 0) +
    (if has_e ∧ e < 0 then 1 else 0) +
    (if has_z ∧ s.current_arc_.end_point.z < 0 then 1 else 0)
  let num_parameters : ℤ := 4 + (if has_e then 1 else 0) + (if has_z then 1 else 0) + (if has_f then 1 else 0)
  2 + num_spaces + num_decimal_points + num_digits + num_minus_signs + num_decimals + num_parameters

/-- The local `e` shared by the spline `get_gcode` and `get_gcode_length`
(`segmented_spline.cpp`, lines 137 and 207). -/
def segmented_spline.e_value (s : segmented_spline) : ℚ :=
  if s.current_spline_.end_point.is_extruder_relative then s.e_relative_ else s.current_spline_.end_point.e_offset

/-- The local `f` shared by the spline `get_gcode` and `get_gcode_length`
(`segmented_spline.cpp`, lines 138 and 208). -/
def segmented_spline.f_value (s : segmented_spline) : ℚ :=
  if s.current_spline_.start_point.f = s.current_spline_.end_point.f then 0 else s.current_spline_.end_point.f

/-- The local `has_e` shared by the spline `get_gcode` and `get_gcode_length`. -/
def segmented_spline.has_e (s : segmented_spline) : Bool := decide (s.e_relative_ ≠ 0)

/-- The local `has_f` shared by the spline `get_gcode` and `get_gcode_length`. -/
def segmented_spline.has_f (s : segmented_spline) : Bool := utilities.greater_than_or_equal s.f_value 1

/-- The local `has_z` shared by the spline `get_gcode` and `get_gcode_length`.
Unlike the arc it does not test `allow_3d_shapes_` (`segmented_spline.cpp`,
lines 141-143 and 211-213). -/
def segmented_spline.has_z (s : segmented_spline) : Bool :=
  !(utilities.is_equal s.current_spline_.start_point.z s.current_spline_.end_point.z (get_xyz_tolerance s.cfg))

/-- `segmented_spline::get_gcode` (`segmented_spline.cpp`, lines 135-203).
Note: `has_z` does not test `allow_3d_shapes_`, and the I, J, P, Q terms are
commented out in the source. -/
def segmented_spline.get_gcode (s : segmented_spline) : String :=
  "G5" ++
    " X" ++ utilities.dtos s.current_spline_.end_point.x s.cfg.xyz_precision ++
    " Y" ++ utilities.dtos s.current_spline_.end_point.y s.cfg.xyz_precision ++
    (if s.has_z then " Z" ++ utilities.dtos s.current_spline_.end_point.z s.cfg.xyz_precision else "") ++
    (if s.has_e then " E" ++ utilities.dtos s.e_value s.cfg.e_precision else "") ++
    (if s.has_f then " F" ++ utilities.dtos s.f_value 0 else "")

/-- `segmented_spline::get_gcode_length` (`segmented_spline.cpp`, lines 205-262).
The source counts the I, J, P, Q terms (with value `0.0`) even though
`get_gcode` does not emit them. -/
def segmented_spline.get_gcode_length (s : segmented_spline) : ℤ :=
  let e : ℚ := s.e_value
  let f : ℚ := s.f_value
  let has_e : Bool := s.has_e
  let has_f : Bool := s.has_f
  let has_z : Bool := s.has_z
  let xyz_precision : ℕ := s.cfg.xyz_precision
  let e_precision : ℕ := s.cfg.e_precision
  let i : ℚ := 0
  let j : ℚ := 0
  let p : ℚ := 0
  let q : ℚ := 0
  let num_spaces : ℤ := 4 + (if has_z then 1 else 0) + (if has_e then 1 else 0) + (if has_f then 1 else 0)
  let num_decimal_points : ℤ := 4 + (if has_z then 1 else 0) + (if has_e then 1 else 0)
  let num_decimals : ℤ := (xyz_precision : ℤ) * (4 + (if has_z then 1 else 0)) + (e_precision : ℤ) * (if has_e then 1 else 0)
  let num_digits : ℤ :=
    (utilities.get_num_digits s.current_spline_.end_point.x xyz_precision : ℤ) +
    (utilities.get_num_digits s.current_spline_.end_point.y xyz_precision : ℤ) +
    (if has_z then (utilities.get_num_digits s.current_spline_.end_point.z xyz_precision : ℤ) else 0) +
    (if has_e then (utilities.get_num_digits e e_precision : ℤ) else 0) +
    (utilities.get_num_digits i xyz_precision : ℤ) +
    (utilities.get_num_digits j xyz_precision : ℤ) +
    (utilities.get_num_digits p xyz_precision : ℤ) +
    (utilities.get_num_digits q xyz_precision : ℤ) +
    (if has_f then (utilities.get_num_digits f 0 : ℤ) else 0)
  let num_minus_signs : ℤ :=
    (if s.current_spline_.end_point.x < 0 then 1 else 0) +
    (if s.current_spline_.end_point.y < 0 then 1 else 0) +
    (if i < 0 then 1 else 0) +
    (if j < 0 then 1 else 0) +
    (if p < 0 then 1 else 0) +
    (if q < 0 then 1 else 0) +
    (if has_e ∧ e < 0 then 1 else 0) +
    (if has_z ∧ s.current_spline_.end_point.z < 0 then 1 else 0)
  let num_parameters : ℤ := 6 + (if has_e then 1 else 0) + (if has_z then 1 else 0) + (if has_f then 1 else 0)
  2 + num_spaces + num_decimal_points + num_digits + num_minus_signs + num_decimals + num_parameters

/-- Modelled from the spec: the calling contract of `arc::try_create_arc`
(its definition is not under `src/`). It receives the extended point buffer
and the updated original shape length (the configuration arguments are fixed
by the accumulator) and either succeeds with the fitted arc or fails; "on
failure the previous Curve Model is left untouched". Theorems quantify over
every such solver. -/
abbrev arc_solver := List printer_point → ℚ → Option arc

/-- Modelled from the spec: the calling contract of `spline::try_create_spline`
(its definition is not under `src/`), as for `arc_solver`. -/
abbrev spline_solver := List printer_point → ℚ → Option spline

/-- The candidate accumulator state after a successful arc fit: point pushed,
original shape length increased by the point's distance, Curve Model replaced
by the fitted arc (`segmented_arc.cpp`, lines 96-109). -/
def segmented_arc.with_fit (s : segmented_arc) (p : printer_point) (na : arc) : segmented_arc :=
  { s with
    points_ := s.points_ ++ [p]
    original_shape_length_ := s.original_shape_length_ + p.distance
    current_arc_ := na }

/-- The emitted-length filter condition on a fitted arc
(`segmented_arc.cpp`, lines 112-116). -/
def segmented_arc.len_fire (s : segmented_arc) (p : printer_point) (na : arc) : Bool :=
  decide (s.cfg.max_gcode_length > 0) && decide ((s.with_fit p na).get_gcode_length > s.cfg.max_gcode_length)

/-- The firmware-compensation filter condition on a fitted arc
(`segmented_arc.cpp`, lines 117-133): evaluated only when both
`min_segments_` and `mm_per_segment_` are positive; fires when
`floor(circumference / min_segments_)` and the retried
`floor(circumference / original_shape_length_)` are both below
`min_segments_`. -/
def segmented_arc.fw_fire (s : segmented_arc) (p : printer_point) (na : arc) : Bool :=
  (decide (s.cfg.min_segments > 0) && decide (s.cfg.mm_per_segment > 0)) &&
    (let circumference : ℚ := 2 * PI_DOUBLE * na.radius
     decide (utilities.floor (circumference / (s.cfg.min_segments : ℚ)) < s.cfg.min_segments) &&
       decide (utilities.floor (circumference / (s.original_shape_length_ + p.distance)) < s.cfg.min_segments))

/-- The degeneracy filter condition on a fitted arc (`segmented_arc.cpp`,
lines 136-145): both center offsets within tolerance of zero, or arc length
below tolerance. -/
def segmented_arc.deg_fire (s : segmented_arc) (na : arc) : Bool :=
  (utilities.is_zero na.get_i (get_xyz_tolerance s.cfg) && utilities.is_zero na.get_j (get_xyz_tolerance s.cfg)) ||
    decide (na.length < get_xyz_tolerance s.cfg)

/-- The final `abort_arc` flag of a fit attempt (`segmented_arc.cpp`, lines
111-146): the emitted-length or firmware filter fired, or — only checked
otherwise — the degeneracy filter condition holds. -/
def segmented_arc.abort_fire (s : segmented_arc) (p : printer_point) (na : arc) : Bool :=
  if s.len_fire p na || s.fw_fire p na then true else s.deg_fire na

/-- `segmented_arc::try_add_point_internal_` (`segmented_arc.cpp`, lines
89-167).  The push/mutate/roll-back sequence of the source is rendered by
computing the final state of each outcome: on any rejection the point buffer,
the original shape length and the Curve Model equal their pre-call values
(rolled back), while the exception counters keep the increments made before
the abort decision. -/
def segmented_arc.try_add_point_internal_ (try_create_arc : arc_solver)
    (s : segmented_arc) (p : printer_point) : Bool × segmented_arc :=
  if (s.points_.length : ℤ) < s.cfg.min_segments - 1 then (false, s)
  else
    match try_create_arc (s.points_ ++ [p]) (s.original_shape_length_ + p.distance) with
    | none => (false, s)
    | some new_arc =>
      let num_len' := s.num_gcode_length_exceptions_ + (if s.len_fire p new_arc then 1 else 0)
      let num_fw' := s.num_firmware_compensations_ + (if s.fw_fire p new_arc then 1 else 0)
      if s.abort_fire p new_arc then
        (false, { s with
          num_gcode_length_exceptions_ := num_len'
          num_firmware_compensations_ := num_fw' })
      else
        (true, { s.with_fit p new_arc with
          is_shape_ := true
          num_gcode_length_exceptions_ := num_len'
          num_firmware_compensations_ := num_fw' })

/-- Modelled from the spec: `segmented_shape::try_add_point` is not under
`src/`.  Per §4.4 step 1, when fewer than `min_segments - 1` points are
buffered the candidate is accepted unconditionally by buffering it (the
append also adds the point's distance to the original shape length, §4.1);
otherwise the fit attempt `try_add_point_internal_` decides. -/
def segmented_arc.try_add_point (try_create_arc : arc_solver)
    (s : segmented_arc) (p : printer_point) : Bool × segmented_arc :=
  if (s.points_.length : ℤ) < s.cfg.min_segments - 1 then
    (true, { s with
      points_ := s.points_ ++ [p]
      original_shape_length_ := s.original_shape_length_ + p.distance })
  else s.try_add_point_internal_ try_create_arc p

/-- Repeated `try_add_point` calls on one arc accumulator. -/
def segmented_arc.run (try_create_arc : arc_solver) :
    segmented_arc → List printer_point → segmented_arc
  | s, [] => s
  | s, p :: ps => segmented_arc.run try_create_arc (s.try_add_point try_create_arc p).2 ps

/-- The candidate spline accumulator state after a successful fit
(`segmented_spline.cpp`, lines 86-90). -/
def segmented_spline.with_fit (s : segmented_spline) (p : printer_point) (ns : spline) : segmented_spline :=
  { s with
    points_ := s.points_ ++ [p]
    original_shape_length_ := s.original_shape_length_ + p.distance
    current_spline_ := ns }

/-- The emitted-length filter condition on a fitted spline
(`segmented_spline.cpp`, lines 93-97). -/
def segmented_spline.len_fire (s : segmented_spline) (p : printer_point) (ns : spline) : Bool :=
  decide (s.cfg.max_gcode_length > 0) && decide ((s.with_fit p ns).get_gcode_length > s.cfg.max_gcode_length)

/-- The degeneracy filter condition on a fitted spline
(`segmented_spline.cpp`, lines 107-111): only the near-zero-length check. -/
def segmented_spline.deg_fire (s : segmented_spline) (ns : spline) : Bool :=
  decide (ns.length < get_xyz_tolerance s.cfg)

/-- The final `abort_spline` flag of a fit attempt (`segmented_spline.cpp`,
lines 92-112). -/
def segmented_spline.abort_fire (s : segmented_spline) (p : printer_point) (ns : spline) : Bool :=
  if s.len_fire p ns then true else s.deg_fire ns

/-- `segmented_spline::try_add_point_internal_` (`segmented_spline.cpp`,
lines 79-133), rendered as for the arc.  There is no firmware-compensation
block: `num_firmware_compensations_` is never touched. -/
def segmented_spline.try_add_point_internal_ (try_create_spline : spline_solver)
    (s : segmented_spline) (p : printer_point) : Bool × segmented_spline :=
  if (s.points_.length : ℤ) < s.cfg.min_segments - 1 then (false, s)
  else
    match try_create_spline (s.points_ ++ [p]) (s.original_shape_length_ + p.distance) with
    | none => (false, s)
    | some new_spline =>
      let num_len' := s.num_gcode_length_exceptions_ + (if s.len_fire p new_spline then 1 else 0)
      if s.abort_fire p new_spline then
        (false, { s with num_gcode_length_exceptions_ := num_len' })
      else
        (true, { s.with_fit p new_spline with
          is_shape_ := true
          num_gcode_length_exceptions_ := num_len' })

/-- Modelled from the spec: `segmented_shape::try_add_point` for the spline
accumulator, exactly as for `segmented_arc.try_add_point`. -/
def segmented_spline.try_add_point (try_create_spline : spline_solver)
    (s : segmented_spline) (p : printer_point) : Bool × segmented_spline :=
  if (s.points_.length : ℤ) < s.cfg.min_segments - 1 then
    (true, { s with
      points_ := s.points_ ++ [p]
      original_shape_length_ := s.original_shape_length_ + p.distance })
  else s.try_add_point_internal_ try_create_spline p

/-- Repeated `try_add_point` calls on one spline accumulator. -/
def segmented_spline.run (try_create_spline : spline_solver) :
    segmented_spline → List printer_point → segmented_spline
  | s, [] => s
  | s, p :: ps => segmented_spline.run try_create_spline (s.try_add_point try_create_spline p).2 ps

/-- Whether a `try_add_point` call on the arc accumulator reaches the
emitted-length filter and it fires (the fit attempt runs, the solver
succeeds, and the predicted length exceeds the configured positive
maximum). -/
def segmented_arc.length_filter_fires (try_create_arc : arc_solver)
    (s : segmented_arc) (p : printer_point) : Bool :=
  !decide ((s.points_.length : ℤ) < s.cfg.min_segments - 1) &&
    match try_create_arc (s.points_ ++ [p]) (s.original_shape_length_ + p.distance) with
    | none => false
    | some na => s.len_fire p na

/-- Whether a `try_add_point` call on the arc accumulator reaches the
firmware-compensation filter and it fires. -/
def segmented_arc.firmware_filter_fires (try_create_arc : arc_solver)
    (s : segmented_arc) (p : printer_point) : Bool :=
  !decide ((s.points_.length : ℤ) < s.cfg.min_segments - 1) &&
    match try_create_arc (s.points_ ++ [p]) (s.original_shape_length_ + p.distance) with
    | none => false
    | some na => s.fw_fire p na

/-- Whether a `try_add_point` call on the arc accumulator meets the
degeneracy-filter condition on the fitted arc. -/
def segmented_arc.degeneracy_filter_fires (try_create_arc : arc_solver)
    (s : segmented_arc) (p : printer_point) : Bool :=
  !decide ((s.points_.length : ℤ) < s.cfg.min_segments - 1) &&
    match try_create_arc (s.points_ ++ [p]) (s.original_shape_length_ + p.distance) with
    | none => false
    | some na => s.deg_fire na

/-- Whether a `try_add_point` call on the spline accumulator reaches the
emitted-length filter and it fires. -/
def segmented_spline.length_filter_fires (try_create_spline : spline_solver)
    (s : segmented_spline) (p : printer_point) : Bool :=
  !decide ((s.points_.length : ℤ) < s.cfg.min_segments - 1) &&
    match try_create_spline (s.points_ ++ [p]) (s.original_shape_length_ + p.distance) with
    | none => false
    | some ns => s.len_fire p ns

/-- Fixture: a point at the origin, feed rate 2400, distance 1. -/
def pt0 : printer_point :=
  { x := 0, y := 0, z := 0, e_offset := 0, is_extruder_relative := false, f := 2400, distance := 1 }

/-- Fixture: a point away from the origin, same feed rate, distance 1. -/
def pt1 : printer_point :=
  { x := 10, y := 10, z := 0, e_offset := 0, is_extruder_relative := false, f := 2400, distance := 1 }

/-- Fixture: the zero-initialized arc of a fresh accumulator. -/
def arc0 : arc :=
  { start_point := pt0, end_point := pt0, angle_radians := 0, radius := 0,
    i_offset := 0, j_offset := 0, length := 0 }

/-- Fixture: the zero-initialized spline of a fresh accumulator. -/
def spline0 : spline := { start_point := pt0, end_point := pt0, length := 0 }

/-- Fixture: a well-formed fitted arc (radius 5, nonzero center offset, length 5). -/
def good_arc : arc :=
  { start_point := pt0, end_point := pt1, angle_radians := 1, radius := 5,
    i_offset := 1, j_offset := 1, length := 5 }

/-- Fixture: a well-formed fitted spline of length 5. -/
def good_spline : spline := { start_point := pt0, end_point := pt1, length := 5 }

/-- Fixture configuration with both post-fit rejection filters disabled
(`max_gcode_length = 0` disables the emitted-length filter,
`mm_per_segment = 0` disables firmware compensation). -/
def cfg_plain : shape_config :=
  { allow_3d_shapes := false, min_segments := 3, max_segments := 1000,
    mm_per_segment := 0, resolution_mm := 1/20, path_tolerance_percent := 1/20,
    max_gcode_length := 0, xyz_precision := 3, e_precision := 5 }

/-- Fixture configuration with the firmware-compensation guard enabled and a
minimum segment count no small arc can meet. -/
def cfg_fw : shape_config := { cfg_plain with min_segments := 10, mm_per_segment := 1 }

/-- Fixture configuration with a one-character emitted-length cap. -/
def cfg_len : shape_config := { cfg_plain with max_gcode_length := 1 }

/-- Fixture arc accumulator holding two buffered points (enough for a fit
attempt at `min_segments = 3`), with no shape yet. -/
def sa_plain : segmented_arc :=
  { cfg := cfg_plain, max_radius_mm_ := 1000000, points_ := [pt0, pt0],
    original_shape_length_ := 2, current_arc_ := arc0, e_relative_ := 0,
    is_shape_ := false, num_firmware_compensations_ := 0,
    num_gcode_length_exceptions_ := 0 }

/-- Fixture arc accumulator ready for a fit attempt under `cfg_fw`. -/
def sa_fw : segmented_arc :=
  { sa_plain with cfg := cfg_fw, points_ := List.replicate 9 pt0, original_shape_length_ := 9 }

/-- Fixture arc accumulator ready for a fit attempt under `cfg_len`. -/
def sa_len : segmented_arc := { sa_plain with cfg := cfg_len }

/-- Fixture spline accumulator holding two buffered points. -/
def ss_plain : segmented_spline :=
  { cfg := cfg_plain, points_ := [pt0, pt0], original_shape_length_ := 2,
    current_spline_ := spline0, e_relative_ := 0, is_shape_ := false,
    num_firmware_compensations_ := 0, num_gcode_length_exceptions_ := 0 }

/-- Fixture spline accumulator ready for a fit attempt under `cfg_len`. -/
def ss_len : segmented_spline := { ss_plain with cfg := cfg_len }

/-- A solver that always fails. -/
def arc_solver_none : arc_solver := fun _ _ => none

/-- A solver that always produces `good_arc`. -/
def arc_solver_good : arc_solver := fun _ _ => some good_arc

/-- A spline solver that always fails. -/
def spline_solver_none : spline_solver := fun _ _ => none

/-- A spline solver that always produces `good_spline`. -/
def spline_solver_good : spline_solver := fun _ _ => some good_spline

/-- Fixture spline accumulator state whose Curve Model ends at `(1, 2)` with no
Z change, no extrusion and no feed-rate change: `get_gcode` is
`"G5 X1.000 Y2.000"` (16 characters). -/
def ss_c1 : segmented_spline :=
  { ss_plain with
    current_spline_ := { start_point := pt0, end_point := { pt0 with x := 1, y := 2 }, length := 3 } }

/-- Fixture spline accumulator whose Curve Model changes Z by 5 while
`allow_3d_shapes` is off. -/
def ss_c7 : segmented_spline :=
  { ss_plain with
    current_spline_ := { start_point := pt0, end_point := { pt0 with z := 5 }, length := 5 } }

/-- Fixture arc accumulator holding a single point (below the
`min_segments - 1` threshold of `cfg_plain`). -/
def sa_fresh : segmented_arc := { sa_plain with points_ := [pt0], original_shape_length_ := 1 }

/-- Fixture spline accumulator holding a single point. -/
def ss_fresh : segmented_spline := { ss_plain with points_ := [pt0], original_shape_length_ := 1 }

/-- Fixture arc accumulator that already holds a valid shape. -/
def sa_shape : segmented_arc := { sa_plain with is_shape_ := true }

/-- Fixture spline accumulator that already holds a valid shape. -/
def ss_shape : segmented_spline := { ss_plain with is_shape_ := true }

section equations

/-- `(s ++ t).data = s.data ++ t.data` for strings, as plain list append. -/
lemma data_append (s t : String) : (s ++ t).data = s.data ++ t.data := by
  cases s
  cases t
  rfl

/-- Buffering path of the modelled `try_add_point`: with fewer than
`min_segments - 1` buffered points the candidate is appended and the call
returns true, for every solver. -/
lemma arc_try_add_point_buffer (f : arc_solver) (s : segmented_arc) (p : printer_point)
    (h : (s.points_.length : ℤ) < s.cfg.min_segments - 1) :
    s.try_add_point f p =
      (true, { s with
        points_ := s.points_ ++ [p]
        original_shape_length_ := s.original_shape_length_ + p.distance }) := by
  simp [segmented_arc.try_add_point, h]

/-- With at least `min_segments - 1` buffered points the modelled
`try_add_point` is the source `try_add_point_internal_`. -/
lemma arc_try_add_point_ge (f : arc_solver) (s : segmented_arc) (p : printer_point)
    (h : ¬ (s.points_.length : ℤ) < s.cfg.min_segments - 1) :
    s.try_add_point f p = s.try_add_point_internal_ f p := by
  simp [segmented_arc.try_add_point, h]

/-- Early-reject path of `try_add_point_internal_` (`segmented_arc.cpp`, line 92). -/
lemma arc_internal_early (f : arc_solver) (s : segmented_arc) (p : printer_point)
    (h : (s.points_.length : ℤ) < s.cfg.min_segments - 1) :
    s.try_add_point_internal_ f p = (false, s) := by
  simp [segmented_arc.try_add_point_internal_, h]

/-- Solver-failure path of `try_add_point_internal_` (`segmented_arc.cpp`,
lines 163-166): full rollback, nothing else changed. -/
lemma arc_internal_none (f : arc_solver) (s : segmented_arc) (p : printer_point)
    (h : ¬ (s.points_.length : ℤ) < s.cfg.min_segments - 1)
    (hn : f (s.points_ ++ [p]) (s.original_shape_length_ + p.distance) = none) :
    s.try_add_point_internal_ f p = (false, s) := by
  simp [segmented_arc.try_add_point_internal_, h, hn]

/-- Post-fit rejection path of `try_add_point_internal_` (`segmented_arc.cpp`,
lines 148-153 then 163-166): buffer, length and Curve Model are rolled back
while the two exception counters keep their increments. -/
lemma arc_internal_abort (f : arc_solver) (s : segmented_arc) (p : printer_point) (na : arc)
    (h : ¬ (s.points_.length : ℤ) < s.cfg.min_segments - 1)
    (hs : f (s.points_ ++ [p]) (s.original_shape_length_ + p.distance) = some na)
    (hab : s.abort_fire p na = true) :
    s.try_add_point_internal_ f p =
      (false, { s with
        num_gcode_length_exceptions_ :=
          s.num_gcode_length_exceptions_ + (if s.len_fire p na then 1 else 0)
        num_firmware_compensations_ :=
          s.num_firmware_compensations_ + (if s.fw_fire p na then 1 else 0) }) := by
  simp [segmented_arc.try_add_point_internal_, h, hs, hab]

/-- The abort flag decomposed into the three filter conditions. -/
lemma arc_abort_fire_iff (s : segmented_arc) (p : printer_point) (na : arc) :
    s.abort_fire p na = true ↔
      (s.len_fire p na = true ∨ s.fw_fire p na = true ∨ s.deg_fire na = true) := by
  unfold segmented_arc.abort_fire
  cases hl : s.len_fire p na <;> cases hw : s.fw_fire p na <;> cases hd : s.deg_fire na <;> simp

/-- Acceptance path of `try_add_point_internal_` (`segmented_arc.cpp`, lines
154-161): the candidate state is kept and the shape flag is set. -/
lemma arc_internal_accept (f : arc_solver) (s : segmented_arc) (p : printer_point) (na : arc)
    (h : ¬ (s.points_.length : ℤ) < s.cfg.min_segments - 1)
    (hs : f (s.points_ ++ [p]) (s.original_shape_length_ + p.distance) = some na)
    (hab : s.abort_fire p na = false) :
    s.try_add_point_internal_ f p = (true, { s.with_fit p na with is_shape_ := true }) := by
  have hl : s.len_fire p na = false := by
    cases hx : s.len_fire p na
    · rfl
    · exfalso
      rw [segmented_arc.abort_fire, hx] at hab
      simp at hab
  have hw : s.fw_fire p na = false := by
    cases hx : s.fw_fire p na
    · rfl
    · exfalso
      rw [segmented_arc.abort_fire, hx] at hab
      simp at hab
  simp [segmented_arc.try_add_point_internal_, h, hs, hab, hl, hw]
  simp [segmented_arc.with_fit]

/-- Buffering path of the modelled spline `try_add_point`. -/
lemma spline_try_add_point_buffer (f : spline_solver) (s : segmented_spline) (p : printer_point)
    (h : (s.points_.length : ℤ) < s.cfg.min_segments - 1) :
    s.try_add_point f p =
      (true, { s with
        points_ := s.points_ ++ [p]
        original_shape_length_ := s.original_shape_length_ + p.distance }) := by
  simp [segmented_spline.try_add_point, h]

/-- With enough buffered points the modelled spline `try_add_point` is the
source `try_add_point_internal_`. -/
lemma spline_try_add_point_ge (f : spline_solver) (s : segmented_spline) (p : printer_point)
    (h : ¬ (s.points_.length : ℤ) < s.cfg.min_segments - 1) :
    s.try_add_point f p = s.try_add_point_internal_ f p := by
  simp [segmented_spline.try_add_point, h]

/-- Early-reject path of the spline `try_add_point_internal_`
(`segmented_spline.cpp`, line 82). -/
lemma spline_internal_early (f : spline_solver) (s : segmented_spline) (p : printer_point)
    (h : (s.points_.length : ℤ) < s.cfg.min_segments - 1) :
    s.try_add_point_internal_ f p = (false, s) := by
  simp [segmented_spline.try_add_point_internal_, h]

/-- Solver-failure path of the spline `try_add_point_internal_`
(`segmented_spline.cpp`, lines 129-132). -/
lemma spline_internal_none (f : spline_solver) (s : segmented_spline) (p : printer_point)
    (h : ¬ (s.points_.length : ℤ) < s.cfg.min_segments - 1)
    (hn : f (s.points_ ++ [p]) (s.original_shape_length_ + p.distance) = none) :
    s.try_add_point_internal_ f p = (false, s) := by
  simp [segmented_spline.try_add_point_internal_, h, hn]

/-- Post-fit rejection path of the spline `try_add_point_internal_`
(`segmented_spline.cpp`, lines 114-119 then 129-132). -/
lemma spline_internal_abort (f : spline_solver) (s : segmented_spline) (p : printer_point) (ns : spline)
    (h : ¬ (s.points_.length : ℤ) < s.cfg.min_segments - 1)
    (hs : f (s.points_ ++ [p]) (s.original_shape_length_ + p.distance) = some ns)
    (hab : s.abort_fire p ns = true) :
    s.try_add_point_internal_ f p =
      (false, { s with
        num_gcode_length_exceptions_ :=
          s.num_gcode_length_exceptions_ + (if s.len_fire p ns then 1 else 0) }) := by
  simp [segmented_spline.try_add_point_internal_, h, hs, hab]

/-- The spline abort flag decomposed into its two filter conditions. -/
lemma spline_abort_fire_iff (s : segmented_spline) (p : printer_point) (ns : spline) :
    s.abort_fire p ns = true ↔ (s.len_fire p ns = true ∨ s.deg_fire ns = true) := by
  unfold segmented_spline.abort_fire
  cases hl : s.len_fire p ns <;> cases hd : s.deg_fire ns <;> simp

/-- Acceptance path of the spline `try_add_point_internal_`
(`segmented_spline.cpp`, lines 120-127). -/
lemma spline_internal_accept (f : spline_solver) (s : segmented_spline) (p : printer_point) (ns : spline)
    (h : ¬ (s.points_.length : ℤ) < s.cfg.min_segments - 1)
    (hs : f (s.points_ ++ [p]) (s.original_shape_length_ + p.distance) = some ns)
    (hab : s.abort_fire p ns = false) :
    s.try_add_point_internal_ f p = (true, { s.with_fit p ns with is_shape_ := true }) := by
  have hl : s.len_fire p ns = false := by
    cases hx : s.len_fire p ns
    · rfl
    · exfalso
      rw [segmented_spline.abort_fire, hx] at hab
      simp at hab
  simp [segmented_spline.try_add_point_internal_, h, hs, hab, hl]
  simp [segmented_spline.with_fit]

/-- A non-aborting arc fit passed the emitted-length filter. -/
lemma arc_abort_false_len (s : segmented_arc) (p : printer_point) (na : arc)
    (hab : s.abort_fire p na = false) : s.len_fire p na = false := by
  cases hx : s.len_fire p na
  · rfl
  · exfalso
    rw [segmented_arc.abort_fire, hx] at hab
    simp at hab

/-- A non-aborting arc fit passed the firmware-compensation filter. -/
lemma arc_abort_false_fw (s : segmented_arc) (p : printer_point) (na : arc)
    (hab : s.abort_fire p na = false) : s.fw_fire p na = false := by
  cases hx : s.fw_fire p na
  · rfl
  · exfalso
    rw [segmented_arc.abort_fire, hx] at hab
    simp at hab

/-- A non-aborting arc fit passed the degeneracy filter. -/
lemma arc_abort_false_deg (s : segmented_arc) (p : printer_point) (na : arc)
    (hab : s.abort_fire p na = false) : s.deg_fire na = false := by
  have hl := arc_abort_false_len s p na hab
  have hw := arc_abort_false_fw s p na hab
  rw [segmented_arc.abort_fire, hl, hw] at hab
  simpa using hab

/-- A non-aborting spline fit passed the emitted-length filter. -/
lemma spline_abort_false_len (s : segmented_spline) (p : printer_point) (ns : spline)
    (hab : s.abort_fire p ns = false) : s.len_fire p ns = false := by
  cases hx : s.len_fire p ns
  · rfl
  · exfalso
    rw [segmented_spline.abort_fire, hx] at hab
    simp at hab

/-- A `try_add_point` call never clears an already-set shape flag. -/
lemma arc_step_is_shape (f : arc_solver) (s : segmented_arc) (p : printer_point)
    (h : s.is_shape_ = true) : (s.try_add_point f p).2.is_shape_ = true := by
  by_cases hc : (s.points_.length : ℤ) < s.cfg.min_segments - 1
  · rw [arc_try_add_point_buffer f s p hc]
    exact h
  · rw [arc_try_add_point_ge f s p hc]
    cases hn : f (s.points_ ++ [p]) (s.original_shape_length_ + p.distance) with
    | none =>
      rw [arc_internal_none f s p hc hn]
      exact h
    | some na =>
      cases hab : s.abort_fire p na with
      | false =>
        rw [arc_internal_accept f s p na hc hn hab]
      | true =>
        rw [arc_internal_abort f s p na hc hn hab]
        exact h

/-- A spline `try_add_point` call never clears an already-set shape flag. -/
lemma spline_step_is_shape (f : spline_solver) (s : segmented_spline) (p : printer_point)
    (h : s.is_shape_ = true) : (s.try_add_point f p).2.is_shape_ = true := by
  by_cases hc : (s.points_.length : ℤ) < s.cfg.min_segments - 1
  · rw [spline_try_add_point_buffer f s p hc]
    exact h
  · rw [spline_try_add_point_ge f s p hc]
    cases hn : f (s.points_ ++ [p]) (s.original_shape_length_ + p.distance) with
    | none =>
      rw [spline_internal_none f s p hc hn]
      exact h
    | some ns =>
      cases hab : s.abort_fire p ns with
      | false =>
        rw [spline_internal_accept f s p ns hc hn hab]
      | true =>
        rw [spline_internal_abort f s p ns hc hn hab]
        exact h

/-- One `try_add_point` call adds one to the gcode-length-exception counter
exactly when the emitted-length filter fires, and leaves it alone otherwise. -/
lemma arc_step_num_len (f : arc_solver) (s : segmented_arc) (p : printer_point) :
    (s.try_add_point f p).2.num_gcode_length_exceptions_ =
      s.num_gcode_length_exceptions_ + (if s.length_filter_fires f p then 1 else 0) := by
  by_cases hc : (s.points_.length : ℤ) < s.cfg.min_segments - 1
  · rw [arc_try_add_point_buffer f s p hc]
    simp [segmented_arc.length_filter_fires, hc]
  · rw [arc_try_add_point_ge f s p hc]
    cases hn : f (s.points_ ++ [p]) (s.original_shape_length_ + p.distance) with
    | none =>
      rw [arc_internal_none f s p hc hn]
      simp [segmented_arc.length_filter_fires, hc, hn]
    | some na =>
      cases hab : s.abort_fire p na with
      | false =>
        rw [arc_internal_accept f s p na hc hn hab]
        simp [segmented_arc.length_filter_fires, hc, hn, arc_abort_false_len s p na hab,
          segmented_arc.with_fit]
      | true =>
        rw [arc_internal_abort f s p na hc hn hab]
        simp [segmented_arc.length_filter_fires, hc, hn]

/-- One `try_add_point` call adds one to the firmware-compensation counter
exactly when the firmware-compensation filter fires. -/
lemma arc_step_num_fw (f : arc_solver) (s : segmented_arc) (p : printer_point) :
    (s.try_add_point f p).2.num_firmware_compensations_ =
      s.num_firmware_compensations_ + (if s.firmware_filter_fires f p then 1 else 0) := by
  by_cases hc : (s.points_.length : ℤ) < s.cfg.min_segments - 1
  · rw [arc_try_add_point_buffer f s p hc]
    simp [segmented_arc.firmware_filter_fires, hc]
  · rw [arc_try_add_point_ge f s p hc]
    cases hn : f (s.points_ ++ [p]) (s.original_shape_length_ + p.distance) with
    | none =>
      rw [arc_internal_none f s p hc hn]
      simp [segmented_arc.firmware_filter_fires, hc, hn]
    | some na =>
      cases hab : s.abort_fire p na with
      | false =>
        rw [arc_internal_accept f s p na hc hn hab]
        simp [segmented_arc.firmware_filter_fires, hc, hn, arc_abort_false_fw s p na hab,
          segmented_arc.with_fit]
      | true =>
        rw [arc_internal_abort f s p na hc hn hab]
        simp [segmented_arc.firmware_filter_fires, hc, hn]

/-- One spline `try_add_point` call adds one to the gcode-length-exception
counter exactly when the emitted-length filter fires. -/
lemma spline_step_num_len (f : spline_solver) (s : segmented_spline) (p : printer_point) :
    (s.try_add_point f p).2.num_gcode_length_exceptions_ =
      s.num_gcode_length_exceptions_ + (if s.length_filter_fires f p then 1 else 0) := by
  by_cases hc : (s.points_.length : ℤ) < s.cfg.min_segments - 1
  · rw [spline_try_add_point_buffer f s p hc]
    simp [segmented_spline.length_filter_fires, hc]
  · rw [spline_try_add_point_ge f s p hc]
    cases hn : f (s.points_ ++ [p]) (s.original_shape_length_ + p.distance) with
    | none =>
      rw [spline_internal_none f s p hc hn]
      simp [segmented_spline.length_filter_fires, hc, hn]
    | some ns =>
      cases hab : s.abort_fire p ns with
      | false =>
        rw [spline_internal_accept f s p ns hc hn hab]
        simp [segmented_spline.length_filter_fires, hc, hn, spline_abort_false_len s p ns hab,
          segmented_spline.with_fit]
      | true =>
        rw [spline_internal_abort f s p ns hc hn hab]
        simp [segmented_spline.length_filter_fires, hc, hn]

/-- A spline `try_add_point` call never touches the firmware-compensation
counter (`segmented_spline.cpp` has no firmware-compensation block). -/
lemma spline_step_num_fw (f : spline_solver) (s : segmented_spline) (p : printer_point) :
    (s.try_add_point f p).2.num_firmware_compensations_ = s.num_firmware_compensations_ := by
  by_cases hc : (s.points_.length : ℤ) < s.cfg.min_segments - 1
  · rw [spline_try_add_point_buffer f s p hc]
  · rw [spline_try_add_point_ge f s p hc]
    cases hn : f (s.points_ ++ [p]) (s.original_shape_length_ + p.distance) with
    | none =>
      rw [spline_internal_none f s p hc hn]
    | some ns =>
      cases hab : s.abort_fire p ns with
      | false =>
        rw [spline_internal_accept f s p ns hc hn hab]
        simp [segmented_spline.with_fit]
      | true =>
        rw [spline_internal_abort f s p ns hc hn hab]

/-- A rejected `try_add_point` call leaves buffer, length and Curve Model
unchanged. -/
lemma arc_step_rollback (f : arc_solver) (s : segmented_arc) (p : printer_point)
    (h : (s.try_add_point f p).1 = false) :
    (s.try_add_point f p).2.points_ = s.points_ ∧
      (s.try_add_point f p).2.original_shape_length_ = s.original_shape_length_ ∧
      (s.try_add_point f p).2.current_arc_ = s.current_arc_ := by
  by_cases hc : (s.points_.length : ℤ) < s.cfg.min_segments - 1
  · rw [arc_try_add_point_buffer f s p hc] at h
    exact absurd h (by simp)
  · rw [arc_try_add_point_ge f s p hc] at h ⊢
    cases hn : f (s.points_ ++ [p]) (s.original_shape_length_ + p.distance) with
    | none =>
      rw [arc_internal_none f s p hc hn]
      exact ⟨rfl, rfl, rfl⟩
    | some na =>
      cases hab : s.abort_fire p na with
      | false =>
        rw [arc_internal_accept f s p na hc hn hab] at h
        exact absurd h (by simp)
      | true =>
        rw [arc_internal_abort f s p na hc hn hab]
        exact ⟨rfl, rfl, rfl⟩

/-- A rejected spline `try_add_point` call leaves buffer, length and Curve
Model unchanged. -/
lemma spline_step_rollback (f : spline_solver) (s : segmented_spline) (p : printer_point)
    (h : (s.try_add_point f p).1 = false) :
    (s.try_add_point f p).2.points_ = s.points_ ∧
      (s.try_add_point f p).2.original_shape_length_ = s.original_shape_length_ ∧
      (s.try_add_point f p).2.current_spline_ = s.current_spline_ := by
  by_cases hc : (s.points_.length : ℤ) < s.cfg.min_segments - 1
  · rw [spline_try_add_point_buffer f s p hc] at h
    exact absurd h (by simp)
  · rw [spline_try_add_point_ge f s p hc] at h ⊢
    cases hn : f (s.points_ ++ [p]) (s.original_shape_length_ + p.distance) with
    | none =>
      rw [spline_internal_none f s p hc hn]
      exact ⟨rfl, rfl, rfl⟩
    | some ns =>
      cases hab : s.abort_fire p ns with
      | false =>
        rw [spline_internal_accept f s p ns hc hn hab] at h
        exact absurd h (by simp)
      | true =>
        rw [spline_internal_abort f s p ns hc hn hab]
        exact ⟨rfl, rfl, rfl⟩

/-- Over any sequence of calls the gcode-length-exception counter of the arc
accumulator never decreases. -/
lemma arc_run_num_len_mono (f : arc_solver) (ps : List printer_point) (s : segmented_arc) :
    s.num_gcode_length_exceptions_ ≤
      (segmented_arc.run f s ps).num_gcode_length_exceptions_ := by
  induction ps generalizing s with
  | nil => exact le_refl _
  | cons p ps ih =>
    rw [segmented_arc.run]
    refine le_trans ?_ (ih (s.try_add_point f p).2)
    rw [arc_step_num_len f s p]
    exact Nat.le_add_right _ _

/-- Over any sequence of calls the firmware-compensation counter of the arc
accumulator never decreases. -/
lemma arc_run_num_fw_mono (f : arc_solver) (ps : List printer_point) (s : segmented_arc) :
    s.num_firmware_compensations_ ≤
      (segmented_arc.run f s ps).num_firmware_compensations_ := by
  induction ps generalizing s with
  | nil => exact le_refl _
  | cons p ps ih =>
    rw [segmented_arc.run]
    refine le_trans ?_ (ih (s.try_add_point f p).2)
    rw [arc_step_num_fw f s p]
    exact Nat.le_add_right _ _

/-- Over any sequence of calls the gcode-length-exception counter of the
spline accumulator never decreases. -/
lemma spline_run_num_len_mono (f : spline_solver) (ps : List printer_point) (s : segmented_spline) :
    s.num_gcode_length_exceptions_ ≤
      (segmented_spline.run f s ps).num_gcode_length_exceptions_ := by
  induction ps generalizing s with
  | nil => exact le_refl _
  | cons p ps ih =>
    rw [segmented_spline.run]
    refine le_trans ?_ (ih (s.try_add_point f p).2)
    rw [spline_step_num_len f s p]
    exact Nat.le_add_right _ _

/-- The gcode-length-exception counter equation for the source fit attempt
itself (`try_add_point_internal_`). -/
lemma arc_internal_num_len (f : arc_solver) (s : segmented_arc) (p : printer_point) :
    (s.try_add_point_internal_ f p).2.num_gcode_length_exceptions_ =
      s.num_gcode_length_exceptions_ + (if s.length_filter_fires f p then 1 else 0) := by
  by_cases hc : (s.points_.length : ℤ) < s.cfg.min_segments - 1
  · rw [arc_internal_early f s p hc]
    simp [segmented_arc.length_filter_fires, hc]
  · rw [← arc_try_add_point_ge f s p hc]
    exact arc_step_num_len f s p

/-- The firmware-compensation counter equation for the source fit attempt
itself (`try_add_point_internal_`). -/
lemma arc_internal_num_fw (f : arc_solver) (s : segmented_arc) (p : printer_point) :
    (s.try_add_point_internal_ f p).2.num_firmware_compensations_ =
      s.num_firmware_compensations_ + (if s.firmware_filter_fires f p then 1 else 0) := by
  by_cases hc : (s.points_.length : ℤ) < s.cfg.min_segments - 1
  · rw [arc_internal_early f s p hc]
    simp [segmented_arc.firmware_filter_fires, hc]
  · rw [← arc_try_add_point_ge f s p hc]
    exact arc_step_num_fw f s p

/-- The gcode-length-exception counter equation for the source spline fit
attempt itself (`try_add_point_internal_`). -/
lemma spline_internal_num_len (f : spline_solver) (s : segmented_spline) (p : printer_point) :
    (s.try_add_point_internal_ f p).2.num_gcode_length_exceptions_ =
      s.num_gcode_length_exceptions_ + (if s.length_filter_fires f p then 1 else 0) := by
  by_cases hc : (s.points_.length : ℤ) < s.cfg.min_segments - 1
  · rw [spline_internal_early f s p hc]
    simp [segmented_spline.length_filter_fires, hc]
  · rw [← spline_try_add_point_ge f s p hc]
    exact spline_step_num_len f s p

/-- The spline fit attempt never touches the firmware-compensation counter. -/
lemma spline_internal_num_fw (f : spline_solver) (s : segmented_spline) (p : printer_point) :
    (s.try_add_point_internal_ f p).2.num_firmware_compensations_ =
      s.num_firmware_compensations_ := by
  by_cases hc : (s.points_.length : ℤ) < s.cfg.min_segments - 1
  · rw [spline_internal_early f s p hc]
  · rw [← spline_try_add_point_ge f s p hc]
    exact spline_step_num_fw f s p

/-- Once set, the arc accumulator's shape flag survives any call sequence. -/
lemma arc_run_is_shape (f : arc_solver) (ps : List printer_point) (s : segmented_arc)
    (h : s.is_shape_ = true) : (segmented_arc.run f s ps).is_shape_ = true := by
  induction ps generalizing s with
  | nil => exact h
  | cons p ps ih =>
    rw [segmented_arc.run]
    exact ih _ (arc_step_is_shape f s p h)

/-- Once set, the spline accumulator's shape flag survives any call sequence. -/
lemma spline_run_is_shape (f : spline_solver) (ps : List printer_point) (s : segmented_spline)
    (h : s.is_shape_ = true) : (segmented_spline.run f s ps).is_shape_ = true := by
  induction ps generalizing s with
  | nil => exact h
  | cons p ps ih =>
    rw [segmented_spline.run]
    exact ih _ (spline_step_is_shape f s p h)

end equations

section evaluation

/-- `10` scaled at three decimal places. -/
lemma scaled_ten_three : utilities.scaled 10 3 = 10000 := by
  norm_num [utilities.scaled, round_eq]
  decide

/-- `1` scaled at three decimal places. -/
lemma scaled_one_three : utilities.scaled 1 3 = 1000 := by
  norm_num [utilities.scaled, round_eq]
  decide

/-- `0` scaled at three decimal places. -/
lemma scaled_zero_three : utilities.scaled 0 3 = 0 := by
  norm_num [utilities.scaled, round_eq]

/-- `10` has two integer digits at three decimal places. -/
lemma gnd_ten_three : utilities.get_num_digits 10 3 = 2 := by
  simp only [utilities.get_num_digits, scaled_ten_three]
  decide

/-- `1` has one integer digit at three decimal places. -/
lemma gnd_one_three : utilities.get_num_digits 1 3 = 1 := by
  simp only [utilities.get_num_digits, scaled_one_three]
  decide

/-- `0` has one integer digit at three decimal places. -/
lemma gnd_zero_three : utilities.get_num_digits 0 3 = 1 := by
  simp only [utilities.get_num_digits, scaled_zero_three]
  decide

/-- The predicted command length of the concrete fitted arc under `cfg_len`. -/
lemma fixture_arc_gcode_length : (sa_len.with_fit pt1 good_arc).get_gcode_length = 32 := by
  simp only [segmented_arc.get_gcode_length, segmented_arc.with_fit, segmented_arc.e_value,
    segmented_arc.f_value, segmented_arc.has_e, segmented_arc.has_f, segmented_arc.has_z,
    sa_len, sa_plain, cfg_len, cfg_plain, good_arc, pt0, pt1, arc.get_i, arc.get_j,
    utilities.greater_than_or_equal, get_xyz_tolerance, utilities.is_equal,
    gnd_ten_three, gnd_one_three]
  norm_num

/-- The emitted-length filter fires on the concrete fitted arc under the
one-character cap. -/
lemma fixture_arc_len_fire : sa_len.len_fire pt1 good_arc = true := by
  simp only [segmented_arc.len_fire, fixture_arc_gcode_length]
  decide

/-- The predicted command length of the concrete fitted spline under `cfg_len`. -/
lemma fixture_spline_gcode_length : (ss_len.with_fit pt1 good_spline).get_gcode_length = 36 := by
  simp only [segmented_spline.get_gcode_length, segmented_spline.with_fit,
    segmented_spline.e_value, segmented_spline.f_value, segmented_spline.has_e,
    segmented_spline.has_f, segmented_spline.has_z,
    ss_len, ss_plain, cfg_len, cfg_plain, good_spline, pt0, pt1,
    utilities.greater_than_or_equal, get_xyz_tolerance, utilities.is_equal,
    gnd_ten_three, gnd_one_three, gnd_zero_three]
  norm_num

/-- The emitted-length filter fires on the concrete fitted spline under the
one-character cap. -/
lemma fixture_spline_len_fire : ss_len.len_fire pt1 good_spline = true := by
  simp only [segmented_spline.len_fire, fixture_spline_gcode_length]
  decide

end evaluation

section strings

/-- `String.mk` length is the underlying list length. -/
lemma string_mk_length (l : List Char) : (String.mk l).length = l.length := rfl

/-- `String.mk` data is the underlying list. -/
lemma string_mk_data (l : List Char) : (String.mk l).data = l := rfl

/-- String concatenation adds lengths. -/
lemma str_length_append (s t : String) : (s ++ t).length = s.length + t.length := by
  show (s ++ t).data.length = s.data.length + t.data.length
  rw [data_append, List.length_append]

/-- Exactly `precision` fractional digit characters are rendered. -/
lemma frac_chars_length (m p : ℕ) : (utilities.frac_chars m p).length = p := by
  simp [utilities.frac_chars]

/-- The rendered length of `dtos`: optional minus sign, the predicted integer
digit count, and, for positive precision, a decimal point plus the fractional
digits.  This is the bridge between the formatter and the length prediction. -/
lemma dtos_length (x : ℚ) (p : ℕ) :
    (utilities.dtos x p).length =
      (if x < 0 then 1 else 0) + utilities.get_num_digits x p + (if p = 0 then 0 else p + 1) := by
  rw [utilities.dtos, string_mk_length]
  by_cases hx : x < 0 <;> by_cases hp : p = 0 <;>
    simp [hx, hp, utilities.get_num_digits, frac_chars_length] <;>
    omega

/-- `Nat.digitChar` never renders the letter Z. -/
lemma digitChar_ne_Z (n : ℕ) : Nat.digitChar n ≠ 'Z' := by
  by_cases h : n < 16
  · have h16 : ∀ m : Fin 16, Nat.digitChar m.val ≠ 'Z' := by decide
    exact h16 ⟨n, h⟩
  · have hstar : Nat.digitChar n = '*' := by
      unfold Nat.digitChar
      repeat rw [if_neg (by omega)]
    rw [hstar]
    decide

/-- Every character produced by the digit renderer is a digit character or
comes from the seed accumulator. -/
lemma mem_to_digits_core (c : Char) (fuel : ℕ) :
    ∀ (n : ℕ) (acc : List Char), c ∈ utilities.to_digits_core fuel n acc →
      c ∈ acc ∨ ∃ d, c = Nat.digitChar d := by
  induction fuel with
  | zero =>
    intro n acc h
    exact Or.inl h
  | succ fuel ih =>
    intro n acc h
    simp only [utilities.to_digits_core] at h
    by_cases h0 : n / 10 = 0
    · rw [if_pos h0] at h
      rcases List.mem_cons.mp h with h | h
      · exact Or.inr ⟨n % 10, h⟩
      · exact Or.inl h
    · rw [if_neg h0] at h
      rcases ih (n / 10) (Nat.digitChar (n % 10) :: acc) h with h | h
      · rcases List.mem_cons.mp h with h2 | h2
        · exact Or.inr ⟨n % 10, h2⟩
        · exact Or.inl h2
      · exact Or.inr h

/-- The integer digit characters never contain the letter Z. -/
lemma count_Z_nat_chars (n : ℕ) : (utilities.nat_chars n).count 'Z' = 0 := by
  rw [List.count_eq_zero]
  intro hmem
  rw [utilities.nat_chars] at hmem
  rcases mem_to_digits_core 'Z' (n + 1) n [] hmem with h | ⟨d, hd⟩
  · exact absurd h (List.not_mem_nil _)
  · exact digitChar_ne_Z d hd.symm

/-- The fractional digit characters never contain the letter Z. -/
lemma count_Z_frac_chars (m p : ℕ) : (utilities.frac_chars m p).count 'Z' = 0 := by
  rw [List.count_eq_zero]
  intro hmem
  rw [utilities.frac_chars, List.mem_reverse] at hmem
  rcases List.mem_map.mp hmem with ⟨k, -, hk⟩
  exact digitChar_ne_Z _ hk

/-- A rendered number never contains the letter Z. -/
lemma count_Z_dtos (x : ℚ) (p : ℕ) : (utilities.dtos x p).data.count 'Z' = 0 := by
  rw [utilities.dtos, string_mk_data, List.count_append, List.count_append]
  rw [count_Z_nat_chars]
  by_cases hx : x < 0 <;> by_cases hp : p = 0 <;>
    simp [hx, hp, count_Z_frac_chars, List.count_cons,
      (by decide : ('Z' : Char) ≠ '.'), (by decide : ('Z' : Char) ≠ '-')]

/-- Letter-Z count of the literal `"G2"`. -/
lemma count_Z_lit_G2 : ("G2").data.count 'Z' = 0 := by decide

/-- Letter-Z count of the literal `"G3"`. -/
lemma count_Z_lit_G3 : ("G3").data.count 'Z' = 0 := by decide

/-- Letter-Z count of the literal `"G5"`. -/
lemma count_Z_lit_G5 : ("G5").data.count 'Z' = 0 := by decide

/-- Letter-Z count of the literal `" X"`. -/
lemma count_Z_lit_X : (" X").data.count 'Z' = 0 := by decide

/-- Letter-Z count of the literal `" Y"`. -/
lemma count_Z_lit_Y : (" Y").data.count 'Z' = 0 := by decide

/-- Letter-Z count of the literal `" Z"`. -/
lemma count_Z_lit_Z : (" Z").data.count 'Z' = 1 := by decide

/-- Letter-Z count of the literal `" I"`. -/
lemma count_Z_lit_I : (" I").data.count 'Z' = 0 := by decide

/-- Letter-Z count of the literal `" J"`. -/
lemma count_Z_lit_J : (" J").data.count 'Z' = 0 := by decide

/-- Letter-Z count of the literal `" E"`. -/
lemma count_Z_lit_E : (" E").data.count 'Z' = 0 := by decide

/-- Letter-Z count of the literal `" F"`. -/
lemma count_Z_lit_F : (" F").data.count 'Z' = 0 := by decide

/-- The arc command string contains the letter Z exactly when the arc `has_z`
condition holds: 3-axis shapes allowed and the Z coordinate moved. -/
lemma arc_gcode_count_Z (s : segmented_arc) :
    (s.get_gcode).data.count 'Z' = (if s.has_z then 1 else 0) := by
  unfold segmented_arc.get_gcode
  by_cases ha : s.current_arc_.angle_radians < 0 <;>
    cases hz : s.has_z <;> cases he : s.has_e <;> cases hf : s.has_f <;>
    simp [ha, hz, he, hf, data_append, List.count_append, count_Z_dtos,
      count_Z_lit_G2, count_Z_lit_G3, count_Z_lit_X, count_Z_lit_Y, count_Z_lit_Z,
      count_Z_lit_I, count_Z_lit_J, count_Z_lit_E, count_Z_lit_F]

/-- The spline command string contains the letter Z exactly when the spline
`has_z` condition holds: the Z coordinate moved — `allow_3d_shapes` is not
consulted. -/
lemma spline_gcode_count_Z (s : segmented_spline) :
    (s.get_gcode).data.count 'Z' = (if s.has_z then 1 else 0) := by
  unfold segmented_spline.get_gcode
  cases hz : s.has_z <;> cases he : s.has_e <;> cases hf : s.has_f <;>
    simp [hz, he, hf, data_append, List.count_append, count_Z_dtos,
      count_Z_lit_G5, count_Z_lit_X, count_Z_lit_Y, count_Z_lit_Z,
      count_Z_lit_E, count_Z_lit_F]

/-- An emitted feed rate is at least 1, hence not negative. -/
lemma arc_has_f_nonneg (s : segmented_arc) (h : s.has_f = true) : ¬ s.f_value < 0 := by
  have h1 : (1 : ℚ) ≤ s.f_value := by
    have := h
    unfold segmented_arc.has_f utilities.greater_than_or_equal at this
    exact of_decide_eq_true this
  intro hneg
  linarith

/-- An emitted spline feed rate is at least 1, hence not negative. -/
lemma spline_has_f_nonneg (s : segmented_spline) (h : s.has_f = true) : ¬ s.f_value < 0 := by
  have h1 : (1 : ℚ) ≤ s.f_value := by
    have := h
    unfold segmented_spline.has_f utilities.greater_than_or_equal at this
    exact of_decide_eq_true this
  intro hneg
  linarith

/-- The feed-rate term renders with no minus sign and no decimal point. -/
lemma arc_dtos_f_length (s : segmented_arc) (h : s.has_f = true) :
    (utilities.dtos s.f_value 0).length = utilities.get_num_digits s.f_value 0 := by
  rw [dtos_length]
  simp [arc_has_f_nonneg s h]

/-- The spline feed-rate term renders with no minus sign and no decimal point. -/
lemma spline_dtos_f_length (s : segmented_spline) (h : s.has_f = true) :
    (utilities.dtos s.f_value 0).length = utilities.get_num_digits s.f_value 0 := by
  rw [dtos_length]
  simp [spline_has_f_nonneg s h]

/-- Length of the literal `"G2"`. -/
lemma len_lit_G2 : ("G2").length = 2 := rfl

/-- Length of the literal `"G3"`. -/
lemma len_lit_G3 : ("G3").length = 2 := rfl

/-- Length of the literal `"G5"`. -/
lemma len_lit_G5 : ("G5").length = 2 := rfl

/-- Length of the two-character term prefixes. -/
lemma len_lit_sp_X : (" X").length = 2 := rfl

/-- Length of the literal `" Y"`. -/
lemma len_lit_sp_Y : (" Y").length = 2 := rfl

/-- Length of the literal `" Z"`. -/
lemma len_lit_sp_Z : (" Z").length = 2 := rfl

/-- Length of the literal `" I"`. -/
lemma len_lit_sp_I : (" I").length = 2 := rfl

/-- Length of the literal `" J"`. -/
lemma len_lit_sp_J : (" J").length = 2 := rfl

/-- Length of the literal `" E"`. -/
lemma len_lit_sp_E : (" E").length = 2 := rfl

/-- Length of the literal `" F"`. -/
lemma len_lit_sp_F : (" F").length = 2 := rfl

/-- Length of the merged literal `"G2 X"`. -/
lemma len_lit_G2X : ("G2 X").length = 4 := rfl

/-- Length of the merged literal `"G3 X"`. -/
lemma len_lit_G3X : ("G3 X").length = 4 := rfl

/-- Length of the merged literal `"G5 X"`. -/
lemma len_lit_G5X : ("G5 X").length = 4 := rfl

/-- Zero always renders with a single integer digit. -/
lemma gnd_zero (p : ℕ) : utilities.get_num_digits 0 p = 1 := by
  have hs : utilities.scaled 0 p = 0 := by
    simp [utilities.scaled]
  simp only [utilities.get_num_digits, hs, Nat.zero_div]
  decide

set_option maxHeartbeats 1600000 in
/-- For positive positional and extrusion precision, the arc length
prediction `get_gcode_length` is exactly the length of the string built by
`get_gcode`, for every accumulator state. -/
lemma arc_gcode_length_exact (s : segmented_arc)
    (hx : 0 < s.cfg.xyz_precision) (hep : 0 < s.cfg.e_precision) :
    s.get_gcode_length = ((s.get_gcode).length : ℤ) := by
  have hx0 : s.cfg.xyz_precision ≠ 0 := Nat.pos_iff_ne_zero.mp hx
  have he0 : s.cfg.e_precision ≠ 0 := Nat.pos_iff_ne_zero.mp hep
  unfold segmented_arc.get_gcode segmented_arc.get_gcode_length
  by_cases ha : s.current_arc_.angle_radians < 0 <;>
    cases hz : s.has_z <;> cases he : s.has_e <;> cases hf : s.has_f <;>
    simp only [ha, hz, he, hf, if_true, if_false, Bool.false_eq_true, Bool.true_and,
      Bool.false_and, Bool.and_true, Bool.and_false, ite_true, ite_false] <;>
    simp [str_length_append, dtos_length, hx0, he0, len_lit_G2, len_lit_G3,
      len_lit_sp_X, len_lit_sp_Y, len_lit_sp_Z, len_lit_sp_I, len_lit_sp_J,
      len_lit_sp_E, len_lit_sp_F, len_lit_G2X, len_lit_G3X] <;>
    (try simp [arc_has_f_nonneg s hf]) <;>
    ring

set_option maxHeartbeats 1600000 in
/-- For positive positional and extrusion precision, the spline length
prediction overshoots the actual string by exactly `12 + 2 * xyz_precision`
characters: it counts the I, J, P and Q terms (four spaces-plus-letters, two
decimal points with `2 * xyz_precision` decimals are miscounted across the
four zero-valued terms, and four single digits) that `get_gcode` never
emits. -/
lemma spline_gcode_length_off (s : segmented_spline)
    (hx : 0 < s.cfg.xyz_precision) (hep : 0 < s.cfg.e_precision) :
    s.get_gcode_length = ((s.get_gcode).length : ℤ) + 12 + 2 * s.cfg.xyz_precision := by
  have hx0 : s.cfg.xyz_precision ≠ 0 := Nat.pos_iff_ne_zero.mp hx
  have he0 : s.cfg.e_precision ≠ 0 := Nat.pos_iff_ne_zero.mp hep
  unfold segmented_spline.get_gcode segmented_spline.get_gcode_length
  cases hz : s.has_z <;> cases he : s.has_e <;> cases hf : s.has_f <;>
    simp only [hz, he, hf, if_true, if_false, Bool.false_eq_true, Bool.true_and,
      Bool.false_and, Bool.and_true, Bool.and_false, ite_true, ite_false] <;>
    simp [str_length_append, dtos_length, hx0, he0, gnd_zero, len_lit_G5,
      len_lit_sp_X, len_lit_sp_Y, len_lit_sp_Z, len_lit_sp_E, len_lit_sp_F,
      len_lit_G5X] <;>
    (try simp [spline_has_f_nonneg s hf]) <;>
    ring

end strings

section claims

/-- C2: for any accumulator state and any point, if `try_add_point` returns
false then the point buffer, the cumulative original shape length and the
current Curve Model are identical by value to their state before the call,
on every rejection path (insufficient points, solver failure, and every
post-fit filter rejection), for the arc and the spline accumulator alike and
for every solver. -/
theorem C2_rollback_on_rejection (fa : arc_solver) (fs : spline_solver)
    (sa : segmented_arc) (ss : segmented_spline) (p q : printer_point)
    (ha : (sa.try_add_point fa p).1 = false)
    (hs : (ss.try_add_point fs q).1 = false) :
    ((sa.try_add_point fa p).2.points_ = sa.points_ ∧
      (sa.try_add_point fa p).2.original_shape_length_ = sa.original_shape_length_ ∧
      (sa.try_add_point fa p).2.current_arc_ = sa.current_arc_) ∧
    ((ss.try_add_point fs q).2.points_ = ss.points_ ∧
      (ss.try_add_point fs q).2.original_shape_length_ = ss.original_shape_length_ ∧
      (ss.try_add_point fs q).2.current_spline_ = ss.current_spline_) :=
  ⟨arc_step_rollback fa sa p ha, spline_step_rollback fs ss q hs⟩

/-- Witness for C2 at a concrete rejected call: the always-failing solver on
accumulators with two buffered points. -/
theorem C2_rollback_witness :
    ((segmented_arc.try_add_point arc_solver_none sa_plain pt1).1 = false ∧
      (segmented_spline.try_add_point spline_solver_none ss_plain pt1).1 = false) ∧
    (((segmented_arc.try_add_point arc_solver_none sa_plain pt1).2.points_ = sa_plain.points_ ∧
      (segmented_arc.try_add_point arc_solver_none sa_plain pt1).2.original_shape_length_ = sa_plain.original_shape_length_ ∧
      (segmented_arc.try_add_point arc_solver_none sa_plain pt1).2.current_arc_ = sa_plain.current_arc_) ∧
    ((segmented_spline.try_add_point spline_solver_none ss_plain pt1).2.points_ = ss_plain.points_ ∧
      (segmented_spline.try_add_point spline_solver_none ss_plain pt1).2.original_shape_length_ = ss_plain.original_shape_length_ ∧
      (segmented_spline.try_add_point spline_solver_none ss_plain pt1).2.current_spline_ = ss_plain.current_spline_)) :=
  ⟨⟨by decide, by decide⟩,
    C2_rollback_on_rejection arc_solver_none spline_solver_none sa_plain ss_plain pt1 pt1
      (by decide) (by decide)⟩

/-- C5: with fewer than `min_segments - 1` buffered points, `try_add_point`
accepts the candidate unconditionally by buffering it and returns true, for
both accumulators; the result does not depend on the solver, so no fit
attempt is involved.  (`segmented_shape::try_add_point` is modelled from the
spec; the source `try_add_point_internal_` only confirms that the fit path
refuses to run below this threshold.) -/
theorem C5_buffers_below_threshold (fa : arc_solver) (fs : spline_solver)
    (sa : segmented_arc) (ss : segmented_spline) (p q : printer_point)
    (ha : (sa.points_.length : ℤ) < sa.cfg.min_segments - 1)
    (hs : (ss.points_.length : ℤ) < ss.cfg.min_segments - 1) :
    sa.try_add_point fa p =
      (true, { sa with
        points_ := sa.points_ ++ [p]
        original_shape_length_ := sa.original_shape_length_ + p.distance }) ∧
    ss.try_add_point fs q =
      (true, { ss with
        points_ := ss.points_ ++ [q]
        original_shape_length_ := ss.original_shape_length_ + q.distance }) :=
  ⟨arc_try_add_point_buffer fa sa p ha, spline_try_add_point_buffer fs ss q hs⟩

/-- Witness for C5: single-point accumulators buffer the candidate and return
true even under the always-failing solver. -/
theorem C5_buffers_witness :
    ((sa_fresh.points_.length : ℤ) < sa_fresh.cfg.min_segments - 1 ∧
      (ss_fresh.points_.length : ℤ) < ss_fresh.cfg.min_segments - 1) ∧
    (segmented_arc.try_add_point arc_solver_none sa_fresh pt1 =
      (true, { sa_fresh with
        points_ := sa_fresh.points_ ++ [pt1]
        original_shape_length_ := sa_fresh.original_shape_length_ + pt1.distance }) ∧
    segmented_spline.try_add_point spline_solver_none ss_fresh pt1 =
      (true, { ss_fresh with
        points_ := ss_fresh.points_ ++ [pt1]
        original_shape_length_ := ss_fresh.original_shape_length_ + pt1.distance })) :=
  ⟨⟨by decide, by decide⟩,
    C5_buffers_below_threshold arc_solver_none spline_solver_none sa_fresh ss_fresh pt1 pt1
      (by decide) (by decide)⟩

/-- C8: once `is_shape` is true it stays true for every further sequence of
`try_add_point` calls, accepted or rejected, on both accumulators. -/
theorem C8_is_shape_monotone (fa : arc_solver) (fs : spline_solver)
    (sa : segmented_arc) (ss : segmented_spline) (ps qs : List printer_point)
    (ha : sa.is_shape = true) (hs : ss.is_shape = true) :
    (segmented_arc.run fa sa ps).is_shape = true ∧
      (segmented_spline.run fs ss qs).is_shape = true :=
  ⟨arc_run_is_shape fa ps sa ha, spline_run_is_shape fs qs ss hs⟩

/-- Witness for C8: accumulators with the shape flag set keep it across a
concrete sequence of rejected calls. -/
theorem C8_is_shape_witness :
    (sa_shape.is_shape = true ∧ ss_shape.is_shape = true) ∧
    ((segmented_arc.run arc_solver_none sa_shape [pt1, pt1]).is_shape = true ∧
      (segmented_spline.run spline_solver_none ss_shape [pt1, pt1]).is_shape = true) :=
  ⟨⟨by decide, by decide⟩,
    C8_is_shape_monotone arc_solver_none spline_solver_none sa_shape ss_shape
      [pt1, pt1] [pt1, pt1] (by decide) (by decide)⟩

/-- C4: whenever the arc fit attempt `try_add_point_internal_` accepts
(returns true), the resulting current arc has center offsets that are not
both within the numeric tolerance of zero, and its length is at least the
numeric tolerance — degenerate fits are never accepted, for any solver,
state and input point. -/
theorem C4_no_degenerate_arc_accepted (fa : arc_solver) (sa : segmented_arc) (p : printer_point)
    (h : (sa.try_add_point_internal_ fa p).1 = true) :
    ((utilities.is_zero (sa.try_add_point_internal_ fa p).2.current_arc_.get_i (get_xyz_tolerance sa.cfg) &&
        utilities.is_zero (sa.try_add_point_internal_ fa p).2.current_arc_.get_j (get_xyz_tolerance sa.cfg)) = false) ∧
      get_xyz_tolerance sa.cfg ≤ (sa.try_add_point_internal_ fa p).2.current_arc_.length := by
  by_cases hc : (sa.points_.length : ℤ) < sa.cfg.min_segments - 1
  · rw [arc_internal_early fa sa p hc] at h
    exact absurd h (by simp)
  · cases hn : fa (sa.points_ ++ [p]) (sa.original_shape_length_ + p.distance) with
    | none =>
      rw [arc_internal_none fa sa p hc hn] at h
      exact absurd h (by simp)
    | some na =>
      cases hab : sa.abort_fire p na with
      | true =>
        rw [arc_internal_abort fa sa p na hc hn hab] at h
        exact absurd h (by simp)
      | false =>
        have hd := arc_abort_false_deg sa p na hab
        rw [arc_internal_accept fa sa p na hc hn hab]
        simp only [segmented_arc.with_fit]
        unfold segmented_arc.deg_fire at hd
        simp only [Bool.or_eq_false_iff, decide_eq_false_iff_not, not_lt] at hd
        exact ⟨hd.1, hd.2⟩

/-- Witness for C4: a concrete accepted fit (nonzero center offset, length 5)
satisfies the invariant. -/
theorem C4_no_degenerate_witness :
    (sa_plain.try_add_point_internal_ arc_solver_good pt1).1 = true ∧
    (((utilities.is_zero (sa_plain.try_add_point_internal_ arc_solver_good pt1).2.current_arc_.get_i (get_xyz_tolerance sa_plain.cfg) &&
        utilities.is_zero (sa_plain.try_add_point_internal_ arc_solver_good pt1).2.current_arc_.get_j (get_xyz_tolerance sa_plain.cfg)) = false) ∧
      get_xyz_tolerance sa_plain.cfg ≤ (sa_plain.try_add_point_internal_ arc_solver_good pt1).2.current_arc_.length) := by
  have hab : sa_plain.abort_fire pt1 good_arc = false := by
    simp only [segmented_arc.abort_fire, segmented_arc.len_fire, segmented_arc.fw_fire,
      segmented_arc.deg_fire, utilities.is_zero, sa_plain, cfg_plain, good_arc,
      get_xyz_tolerance, arc.get_i, arc.get_j]
    norm_num
  have h : (sa_plain.try_add_point_internal_ arc_solver_good pt1).1 = true := by
    rw [arc_internal_accept arc_solver_good sa_plain pt1 good_arc (by decide) rfl hab]
  exact ⟨h, C4_no_degenerate_arc_accepted arc_solver_good sa_plain pt1 h⟩

/-- C3: on an arc fit attempt that passed the geometry solver (with the
filter's guard `min_segments > 0` and `mm_per_segment > 0` in force), the
firmware-compensation filter rejects iff both
`floor(circumference / min_segments)` and the retried
`floor(circumference / original_shape_length)` are below `min_segments`;
on that rejection the call fails and the firmware-compensation counter is
incremented, on no rejection it is unchanged; the spline accumulator never
touches the counter at all. -/
theorem C3_firmware_compensation_filter (fa : arc_solver) (sa : segmented_arc)
    (p : printer_point) (na : arc)
    (fs : spline_solver) (ss : segmented_spline) (q : printer_point)
    (hmin : 0 < sa.cfg.min_segments) (hmm : 0 < sa.cfg.mm_per_segment)
    (hc : ¬ (sa.points_.length : ℤ) < sa.cfg.min_segments - 1)
    (hfit : fa (sa.points_ ++ [p]) (sa.original_shape_length_ + p.distance) = some na) :
    (sa.fw_fire p na = true ↔
      (utilities.floor (2 * PI_DOUBLE * na.radius / (sa.cfg.min_segments : ℚ)) < sa.cfg.min_segments ∧
        utilities.floor (2 * PI_DOUBLE * na.radius / (sa.original_shape_length_ + p.distance)) < sa.cfg.min_segments)) ∧
    (sa.fw_fire p na = true →
      (sa.try_add_point_internal_ fa p).1 = false ∧
        (sa.try_add_point_internal_ fa p).2.num_firmware_compensations_ =
          sa.num_firmware_compensations_ + 1) ∧
    (sa.fw_fire p na = false →
      (sa.try_add_point_internal_ fa p).2.num_firmware_compensations_ =
        sa.num_firmware_compensations_) ∧
    ((ss.try_add_point_internal_ fs q).2.num_firmware_compensations_ =
      ss.num_firmware_compensations_) := by
  have hff : sa.firmware_filter_fires fa p = sa.fw_fire p na := by
    simp [segmented_arc.firmware_filter_fires, hc, hfit]
  refine ⟨?_, ?_, ?_, spline_internal_num_fw fs ss q⟩
  · simp [segmented_arc.fw_fire, hmin, hmm]
  · intro hfw
    have habt : sa.abort_fire p na = true := by
      simp [segmented_arc.abort_fire, hfw]
    constructor
    · rw [arc_internal_abort fa sa p na hc hfit habt]
    · rw [arc_internal_num_fw fa sa p, hff, hfw]
      simp
  · intro hfw
    rw [arc_internal_num_fw fa sa p, hff, hfw]
    simp

/-- Witness for C3: under `cfg_fw` (minimum segment count 10) the concrete
fitted arc of radius 5 trips the firmware-compensation filter: both floored
quotients are 3. -/
theorem C3_firmware_witness :
    (0 < sa_fw.cfg.min_segments ∧ 0 < sa_fw.cfg.mm_per_segment ∧
      ¬ (sa_fw.points_.length : ℤ) < sa_fw.cfg.min_segments - 1 ∧
      sa_fw.fw_fire pt1 good_arc = true) ∧
    ((sa_fw.fw_fire pt1 good_arc = true ↔
      (utilities.floor (2 * PI_DOUBLE * good_arc.radius / (sa_fw.cfg.min_segments : ℚ)) < sa_fw.cfg.min_segments ∧
        utilities.floor (2 * PI_DOUBLE * good_arc.radius / (sa_fw.original_shape_length_ + pt1.distance)) < sa_fw.cfg.min_segments)) ∧
    (sa_fw.fw_fire pt1 good_arc = true →
      (sa_fw.try_add_point_internal_ arc_solver_good pt1).1 = false ∧
        (sa_fw.try_add_point_internal_ arc_solver_good pt1).2.num_firmware_compensations_ =
          sa_fw.num_firmware_compensations_ + 1) ∧
    (sa_fw.fw_fire pt1 good_arc = false →
      (sa_fw.try_add_point_internal_ arc_solver_good pt1).2.num_firmware_compensations_ =
        sa_fw.num_firmware_compensations_) ∧
    ((ss_plain.try_add_point_internal_ spline_solver_none pt1).2.num_firmware_compensations_ =
      ss_plain.num_firmware_compensations_)) := by
  have hfw : sa_fw.fw_fire pt1 good_arc = true := by
    simp only [segmented_arc.fw_fire, sa_fw, sa_plain, cfg_fw, cfg_plain, good_arc, pt1,
      utilities.floor, PI_DOUBLE, Bool.and_eq_true, decide_eq_true_eq]
    norm_num
  exact ⟨⟨by decide, by norm_num [sa_fw, sa_plain, cfg_fw, cfg_plain], by decide, hfw⟩,
    C3_firmware_compensation_filter arc_solver_good sa_fw pt1 good_arc
      spline_solver_none ss_plain pt1
      (by decide) (by norm_num [sa_fw, sa_plain, cfg_fw, cfg_plain]) (by decide) rfl⟩

/-- C6: for arcs and splines alike, the emitted-length filter fires iff a
positive maximum command length is configured and the predicted length of
the candidate state exceeds it; when it fires the fit attempt fails and the
gcode-length-exception counter is incremented; a configured maximum of 0
makes the filter never fire and never touch the counter. -/
theorem C6_emitted_length_filter (fa : arc_solver) (sa : segmented_arc)
    (p : printer_point) (na : arc)
    (fs : spline_solver) (ss : segmented_spline) (q : printer_point) (ns : spline)
    (hca : ¬ (sa.points_.length : ℤ) < sa.cfg.min_segments - 1)
    (hfa : fa (sa.points_ ++ [p]) (sa.original_shape_length_ + p.distance) = some na)
    (hcs : ¬ (ss.points_.length : ℤ) < ss.cfg.min_segments - 1)
    (hfs : fs (ss.points_ ++ [q]) (ss.original_shape_length_ + q.distance) = some ns) :
    (sa.len_fire p na = true ↔
      (0 < sa.cfg.max_gcode_length ∧
        (sa.with_fit p na).get_gcode_length > sa.cfg.max_gcode_length)) ∧
    (sa.len_fire p na = true →
      (sa.try_add_point_internal_ fa p).1 = false ∧
        (sa.try_add_point_internal_ fa p).2.num_gcode_length_exceptions_ =
          sa.num_gcode_length_exceptions_ + 1) ∧
    (sa.cfg.max_gcode_length = 0 →
      sa.len_fire p na = false ∧
        (sa.try_add_point_internal_ fa p).2.num_gcode_length_exceptions_ =
          sa.num_gcode_length_exceptions_) ∧
    (ss.len_fire q ns = true ↔
      (0 < ss.cfg.max_gcode_length ∧
        (ss.with_fit q ns).get_gcode_length > ss.cfg.max_gcode_length)) ∧
    (ss.len_fire q ns = true →
      (ss.try_add_point_internal_ fs q).1 = false ∧
        (ss.try_add_point_internal_ fs q).2.num_gcode_length_exceptions_ =
          ss.num_gcode_length_exceptions_ + 1) ∧
    (ss.cfg.max_gcode_length = 0 →
      ss.len_fire q ns = false ∧
        (ss.try_add_point_internal_ fs q).2.num_gcode_length_exceptions_ =
          ss.num_gcode_length_exceptions_) := by
  have hffa : sa.length_filter_fires fa p = sa.len_fire p na := by
    simp [segmented_arc.length_filter_fires, hca, hfa]
  have hffs : ss.length_filter_fires fs q = ss.len_fire q ns := by
    simp [segmented_spline.length_filter_fires, hcs, hfs]
  refine ⟨?_, ?_, ?_, ?_, ?_, ?_⟩
  · simp [segmented_arc.len_fire]
  · intro hl
    have habt : sa.abort_fire p na = true := by
      simp [segmented_arc.abort_fire, hl]
    constructor
    · rw [arc_internal_abort fa sa p na hca hfa habt]
    · rw [arc_internal_num_len fa sa p, hffa, hl]
      simp
  · intro hmax
    have hl : sa.len_fire p na = false := by
      simp [segmented_arc.len_fire, hmax]
    refine ⟨hl, ?_⟩
    rw [arc_internal_num_len fa sa p, hffa, hl]
    simp
  · simp [segmented_spline.len_fire]
  · intro hl
    have habt : ss.abort_fire q ns = true := by
      simp [segmented_spline.abort_fire, hl]
    constructor
    · rw [spline_internal_abort fs ss q ns hcs hfs habt]
    · rw [spline_internal_num_len fs ss q, hffs, hl]
      simp
  · intro hmax
    have hl : ss.len_fire q ns = false := by
      simp [segmented_spline.len_fire, hmax]
    refine ⟨hl, ?_⟩
    rw [spline_internal_num_len fs ss q, hffs, hl]
    simp

/-- Witness for C6 under the one-character cap: the filter fires on both the
concrete arc (predicted length 32) and the concrete spline (predicted length
36), so the instantiated conclusion is not vacuous. -/
theorem C6_emitted_length_witness :
    (sa_len.len_fire pt1 good_arc = true ∧ ss_len.len_fire pt1 good_spline = true) ∧
    ((sa_len.len_fire pt1 good_arc = true ↔
      (0 < sa_len.cfg.max_gcode_length ∧
        (sa_len.with_fit pt1 good_arc).get_gcode_length > sa_len.cfg.max_gcode_length)) ∧
    (sa_len.len_fire pt1 good_arc = true →
      (sa_len.try_add_point_internal_ arc_solver_good pt1).1 = false ∧
        (sa_len.try_add_point_internal_ arc_solver_good pt1).2.num_gcode_length_exceptions_ =
          sa_len.num_gcode_length_exceptions_ + 1) ∧
    (sa_len.cfg.max_gcode_length = 0 →
      sa_len.len_fire pt1 good_arc = false ∧
        (sa_len.try_add_point_internal_ arc_solver_good pt1).2.num_gcode_length_exceptions_ =
          sa_len.num_gcode_length_exceptions_) ∧
    (ss_len.len_fire pt1 good_spline = true ↔
      (0 < ss_len.cfg.max_gcode_length ∧
        (ss_len.with_fit pt1 good_spline).get_gcode_length > ss_len.cfg.max_gcode_length)) ∧
    (ss_len.len_fire pt1 good_spline = true →
      (ss_len.try_add_point_internal_ spline_solver_good pt1).1 = false ∧
        (ss_len.try_add_point_internal_ spline_solver_good pt1).2.num_gcode_length_exceptions_ =
          ss_len.num_gcode_length_exceptions_ + 1) ∧
    (ss_len.cfg.max_gcode_length = 0 →
      ss_len.len_fire pt1 good_spline = false ∧
        (ss_len.try_add_point_internal_ spline_solver_good pt1).2.num_gcode_length_exceptions_ =
          ss_len.num_gcode_length_exceptions_)) :=
  ⟨⟨fixture_arc_len_fire, fixture_spline_len_fire⟩,
    C6_emitted_length_filter arc_solver_good sa_len pt1 good_arc
      spline_solver_good ss_len pt1 good_spline
      (by decide) rfl (by decide) rfl⟩

/-- C9: across every call, each counter gains one exactly when its filter
fires and is never otherwise changed; rejected calls roll back the buffer,
the cumulative length and the Curve Model but not the counters; and over any
call sequence the counters never decrease — a filter-caused increment is
permanent. -/
theorem C9_counters_survive_rollback (fa : arc_solver) (fs : spline_solver)
    (sa : segmented_arc) (ss : segmented_spline) (p q : printer_point)
    (ps qs : List printer_point) :
    ((sa.try_add_point fa p).2.num_gcode_length_exceptions_ =
        sa.num_gcode_length_exceptions_ + (if sa.length_filter_fires fa p then 1 else 0)) ∧
    ((sa.try_add_point fa p).2.num_firmware_compensations_ =
        sa.num_firmware_compensations_ + (if sa.firmware_filter_fires fa p then 1 else 0)) ∧
    ((sa.try_add_point fa p).1 = false →
      (sa.try_add_point fa p).2.points_ = sa.points_ ∧
        (sa.try_add_point fa p).2.original_shape_length_ = sa.original_shape_length_ ∧
        (sa.try_add_point fa p).2.current_arc_ = sa.current_arc_) ∧
    (sa.num_gcode_length_exceptions_ ≤
      (segmented_arc.run fa sa ps).num_gcode_length_exceptions_) ∧
    (sa.num_firmware_compensations_ ≤
      (segmented_arc.run fa sa ps).num_firmware_compensations_) ∧
    ((ss.try_add_point fs q).2.num_gcode_length_exceptions_ =
        ss.num_gcode_length_exceptions_ + (if ss.length_filter_fires fs q then 1 else 0)) ∧
    ((ss.try_add_point fs q).1 = false →
      (ss.try_add_point fs q).2.points_ = ss.points_ ∧
        (ss.try_add_point fs q).2.original_shape_length_ = ss.original_shape_length_ ∧
        (ss.try_add_point fs q).2.current_spline_ = ss.current_spline_) ∧
    (ss.num_gcode_length_exceptions_ ≤
      (segmented_spline.run fs ss qs).num_gcode_length_exceptions_) :=
  ⟨arc_step_num_len fa sa p, arc_step_num_fw fa sa p, arc_step_rollback fa sa p,
    arc_run_num_len_mono fa ps sa, arc_run_num_fw_mono fa ps sa,
    spline_step_num_len fs ss q, spline_step_rollback fs ss q,
    spline_run_num_len_mono fs qs ss⟩

/-- Witness for C9 at a concrete firmware-compensation rejection: the filter
fires, the call fails, and the counter increment is kept. -/
theorem C9_counters_witness :
    (sa_fw.firmware_filter_fires arc_solver_good pt1 = sa_fw.fw_fire pt1 good_arc) ∧
    (((sa_fw.try_add_point arc_solver_good pt1).2.num_gcode_length_exceptions_ =
        sa_fw.num_gcode_length_exceptions_ + (if sa_fw.length_filter_fires arc_solver_good pt1 then 1 else 0)) ∧
    ((sa_fw.try_add_point arc_solver_good pt1).2.num_firmware_compensations_ =
        sa_fw.num_firmware_compensations_ + (if sa_fw.firmware_filter_fires arc_solver_good pt1 then 1 else 0)) ∧
    ((sa_fw.try_add_point arc_solver_good pt1).1 = false →
      (sa_fw.try_add_point arc_solver_good pt1).2.points_ = sa_fw.points_ ∧
        (sa_fw.try_add_point arc_solver_good pt1).2.original_shape_length_ = sa_fw.original_shape_length_ ∧
        (sa_fw.try_add_point arc_solver_good pt1).2.current_arc_ = sa_fw.current_arc_) ∧
    (sa_fw.num_gcode_length_exceptions_ ≤
      (segmented_arc.run arc_solver_good sa_fw [pt1]).num_gcode_length_exceptions_) ∧
    (sa_fw.num_firmware_compensations_ ≤
      (segmented_arc.run arc_solver_good sa_fw [pt1]).num_firmware_compensations_) ∧
    ((ss_plain.try_add_point spline_solver_none pt1).2.num_gcode_length_exceptions_ =
        ss_plain.num_gcode_length_exceptions_ + (if ss_plain.length_filter_fires spline_solver_none pt1 then 1 else 0)) ∧
    ((ss_plain.try_add_point spline_solver_none pt1).1 = false →
      (ss_plain.try_add_point spline_solver_none pt1).2.points_ = ss_plain.points_ ∧
        (ss_plain.try_add_point spline_solver_none pt1).2.original_shape_length_ = ss_plain.original_shape_length_ ∧
        (ss_plain.try_add_point spline_solver_none pt1).2.current_spline_ = ss_plain.current_spline_) ∧
    (ss_plain.num_gcode_length_exceptions_ ≤
      (segmented_spline.run spline_solver_none ss_plain [pt1]).num_gcode_length_exceptions_)) :=
  ⟨by simp [segmented_arc.firmware_filter_fires, arc_solver_good, (by decide :
      ¬ (sa_fw.points_.length : ℤ) < sa_fw.cfg.min_segments - 1)],
    C9_counters_survive_rollback arc_solver_good spline_solver_none sa_fw ss_plain pt1 pt1
      [pt1] [pt1]⟩

/-- C10: the firmware-compensation filter fires exactly when both guard
values are positive, the fit attempt runs, the solver succeeds, and both
floored quotients fall below the minimum segment count (this also shows the
counter never increments when either guard value is not positive); and with
the guard off, a fit attempt fails exactly for one of the other reasons
(too few points, solver failure, emitted-length filter, degeneracy filter) —
never for firmware compensation. -/
theorem C10_firmware_guard (fa : arc_solver) (sa : segmented_arc) (p : printer_point) :
    (sa.firmware_filter_fires fa p = true ↔
      (0 < sa.cfg.min_segments ∧ 0 < sa.cfg.mm_per_segment ∧
        (¬ (sa.points_.length : ℤ) < sa.cfg.min_segments - 1) ∧
        ∃ na, fa (sa.points_ ++ [p]) (sa.original_shape_length_ + p.distance) = some na ∧
          utilities.floor (2 * PI_DOUBLE * na.radius / (sa.cfg.min_segments : ℚ)) < sa.cfg.min_segments ∧
          utilities.floor (2 * PI_DOUBLE * na.radius / (sa.original_shape_length_ + p.distance)) < sa.cfg.min_segments)) ∧
    ((sa.try_add_point_internal_ fa p).2.num_firmware_compensations_ =
      sa.num_firmware_compensations_ + (if sa.firmware_filter_fires fa p then 1 else 0)) ∧
    (¬ (0 < sa.cfg.min_segments ∧ 0 < sa.cfg.mm_per_segment) →
      ((sa.try_add_point_internal_ fa p).1 = false ↔
        ((sa.points_.length : ℤ) < sa.cfg.min_segments - 1 ∨
          fa (sa.points_ ++ [p]) (sa.original_shape_length_ + p.distance) = none ∨
          sa.length_filter_fires fa p = true ∨
          sa.degeneracy_filter_fires fa p = true))) := by
  refine ⟨?_, arc_internal_num_fw fa sa p, ?_⟩
  · by_cases hc : (sa.points_.length : ℤ) < sa.cfg.min_segments - 1
    · simp [segmented_arc.firmware_filter_fires, hc]
    · cases hn : fa (sa.points_ ++ [p]) (sa.original_shape_length_ + p.distance) with
      | none => simp [segmented_arc.firmware_filter_fires, hc, hn]
      | some na =>
        have hff : sa.firmware_filter_fires fa p = sa.fw_fire p na := by
          simp [segmented_arc.firmware_filter_fires, hc, hn]
        rw [hff]
        simp only [segmented_arc.fw_fire, utilities.floor, Bool.and_eq_true,
          decide_eq_true_eq, gt_iff_lt]
        constructor
        · rintro ⟨⟨h1, h2⟩, h3, h4⟩
          exact ⟨h1, h2, hc, na, rfl, h3, h4⟩
        · rintro ⟨h1, h2, -, na', hna, h3, h4⟩
          injection hna with hee
          subst hee
          exact ⟨⟨h1, h2⟩, h3, h4⟩
  · intro hg
    have hgd : (decide (sa.cfg.min_segments > 0) && decide (sa.cfg.mm_per_segment > 0)) = false := by
      rcases not_and_or.mp hg with h | h <;> simp [h]
    by_cases hc : (sa.points_.length : ℤ) < sa.cfg.min_segments - 1
    · rw [arc_internal_early fa sa p hc]
      simp [hc]
    · cases hn : fa (sa.points_ ++ [p]) (sa.original_shape_length_ + p.distance) with
      | none =>
        rw [arc_internal_none fa sa p hc hn]
        simp [hc, hn]
      | some na =>
        have hfw : sa.fw_fire p na = false := by
          rw [segmented_arc.fw_fire, hgd]
          rfl
        have hlf : sa.length_filter_fires fa p = sa.len_fire p na := by
          simp [segmented_arc.length_filter_fires, hc, hn]
        have hdf : sa.degeneracy_filter_fires fa p = sa.deg_fire na := by
          simp [segmented_arc.degeneracy_filter_fires, hc, hn]
        rw [hlf, hdf]
        cases habt : sa.abort_fire p na with
        | true =>
          rw [arc_internal_abort fa sa p na hc hn habt]
          rw [segmented_arc.abort_fire, hfw] at habt
          simp only [Bool.or_false] at habt
          have hrej : sa.len_fire p na = true ∨ sa.deg_fire na = true := by
            cases hl : sa.len_fire p na with
            | true => exact Or.inl rfl
            | false =>
              rw [hl] at habt
              simp at habt
              exact Or.inr habt
          constructor
          · intro _
            rcases hrej with h | h
            · exact Or.inr (Or.inr (Or.inl h))
            · exact Or.inr (Or.inr (Or.inr h))
          · intro _
            rfl
        | false =>
          rw [arc_internal_accept fa sa p na hc hn habt]
          have hl := arc_abort_false_len sa p na habt
          have hd := arc_abort_false_deg sa p na habt
          simp [hc, hn, hl, hd]

/-- Witness for C10: with `mm_per_segment = 0` the guard is off, the filter
does not fire, the concrete fit is accepted, and none of the other rejection
causes holds. -/
theorem C10_firmware_guard_witness :
    (¬ (0 < sa_plain.cfg.min_segments ∧ 0 < sa_plain.cfg.mm_per_segment)) ∧
    ((sa_plain.firmware_filter_fires arc_solver_good pt1 = true ↔
      (0 < sa_plain.cfg.min_segments ∧ 0 < sa_plain.cfg.mm_per_segment ∧
        (¬ (sa_plain.points_.length : ℤ) < sa_plain.cfg.min_segments - 1) ∧
        ∃ na, arc_solver_good (sa_plain.points_ ++ [pt1]) (sa_plain.original_shape_length_ + pt1.distance) = some na ∧
          utilities.floor (2 * PI_DOUBLE * na.radius / (sa_plain.cfg.min_segments : ℚ)) < sa_plain.cfg.min_segments ∧
          utilities.floor (2 * PI_DOUBLE * na.radius / (sa_plain.original_shape_length_ + pt1.distance)) < sa_plain.cfg.min_segments)) ∧
    ((sa_plain.try_add_point_internal_ arc_solver_good pt1).2.num_firmware_compensations_ =
      sa_plain.num_firmware_compensations_ + (if sa_plain.firmware_filter_fires arc_solver_good pt1 then 1 else 0)) ∧
    (¬ (0 < sa_plain.cfg.min_segments ∧ 0 < sa_plain.cfg.mm_per_segment) →
      ((sa_plain.try_add_point_internal_ arc_solver_good pt1).1 = false ↔
        ((sa_plain.points_.length : ℤ) < sa_plain.cfg.min_segments - 1 ∨
          arc_solver_good (sa_plain.points_ ++ [pt1]) (sa_plain.original_shape_length_ + pt1.distance) = none ∨
          sa_plain.length_filter_fires arc_solver_good pt1 = true ∨
          sa_plain.degeneracy_filter_fires arc_solver_good pt1 = true)))) :=
  ⟨by norm_num [sa_plain, cfg_plain],
    C10_firmware_guard arc_solver_good sa_plain pt1⟩

/-- C1: the length-prediction exactness claim fails for the spline
accumulator.  For every spline state (at positive positional and extrusion
precision) `get_gcode_length` exceeds the character length of `get_gcode` by
exactly `12 + 2 * xyz_precision` — the prediction still counts the I, J, P
and Q terms that the formatter has commented out — in particular the two are
never equal.  The arc accumulator does satisfy the claim exactly. -/
theorem C1_spline_length_prediction_bug (ss : segmented_spline) (sa : segmented_arc)
    (hx : 0 < ss.cfg.xyz_precision) (hep : 0 < ss.cfg.e_precision)
    (hax : 0 < sa.cfg.xyz_precision) (haep : 0 < sa.cfg.e_precision) :
    (ss.get_gcode_length = ((ss.get_gcode).length : ℤ) + 12 + 2 * ss.cfg.xyz_precision ∧
      ss.get_gcode_length ≠ ((ss.get_gcode).length : ℤ)) ∧
    sa.get_gcode_length = ((sa.get_gcode).length : ℤ) := by
  refine ⟨⟨spline_gcode_length_off ss hx hep, ?_⟩, arc_gcode_length_exact sa hax haep⟩
  rw [spline_gcode_length_off ss hx hep]
  omega

/-- Witness for C1 at the concrete state `ss_c1`, whose `get_gcode` is
`"G5 X1.000 Y2.000"` (16 characters) while `get_gcode_length` answers 34. -/
theorem C1_spline_length_prediction_witness :
    (0 < ss_c1.cfg.xyz_precision ∧ 0 < ss_c1.cfg.e_precision ∧
      0 < sa_plain.cfg.xyz_precision ∧ 0 < sa_plain.cfg.e_precision) ∧
    ((ss_c1.get_gcode_length = ((ss_c1.get_gcode).length : ℤ) + 12 + 2 * ss_c1.cfg.xyz_precision ∧
      ss_c1.get_gcode_length ≠ ((ss_c1.get_gcode).length : ℤ)) ∧
    sa_plain.get_gcode_length = ((sa_plain.get_gcode).length : ℤ)) :=
  ⟨⟨by decide, by decide, by decide, by decide⟩,
    C1_spline_length_prediction_bug ss_c1 sa_plain (by decide) (by decide) (by decide) (by decide)⟩

/-- C7 counterexample: a spline state with 3-axis shapes disabled whose Z
coordinate moves by 5 still emits a Z term — against the claim that the Z
term appears only when 3-axis shapes are enabled. -/
theorem C7_z_term_counterexample :
    ss_c7.cfg.allow_3d_shapes = false ∧ (ss_c7.get_gcode).data.count 'Z' = 1 := by
  refine ⟨rfl, ?_⟩
  rw [spline_gcode_count_Z]
  have hz : ss_c7.has_z = true := by
    simp only [segmented_spline.has_z, ss_c7, ss_plain, cfg_plain, spline0, pt0,
      utilities.is_equal, get_xyz_tolerance, Bool.not_eq_true', decide_eq_false_iff_not]
    norm_num
  rw [hz]
  rfl

/-- C7 amended: the arc formatter emits the Z term iff 3-axis shapes are
enabled and the end Z is not within numeric tolerance of the start Z; the
spline formatter emits the Z term iff the end Z is not within tolerance of
the start Z, regardless of the 3-axis setting. -/
theorem C7_z_term_amended (sa : segmented_arc) (ss : segmented_spline) :
    ((sa.get_gcode).data.count 'Z' =
      if sa.cfg.allow_3d_shapes &&
          !(utilities.is_equal sa.current_arc_.start_point.z sa.current_arc_.end_point.z
            (get_xyz_tolerance sa.cfg))
        then 1 else 0) ∧
    ((ss.get_gcode).data.count 'Z' =
      if !(utilities.is_equal ss.current_spline_.start_point.z ss.current_spline_.end_point.z
            (get_xyz_tolerance ss.cfg))
        then 1 else 0) :=
  ⟨arc_gcode_count_Z sa, spline_gcode_count_Z ss⟩

end claims

end ArcWelder
